import Mathlib

set_option linter.unusedVariables false

/-!
# Shallow embedding of the UltimateFrisbeeDemo game logic

This file embeds the data model and operations of the browser ultimate-frisbee
simulation (`src/field.js`, `src/game.js`, and the earlier game-logic variant
`src/unnamed/part_000`, embedded under the namespace `V0`) and proves the
spec-derived claims about them.

Modelling conventions:
* JavaScript numbers are modelled as real numbers (`ℝ`); `Math.sqrt` is
  `Real.sqrt`, `Math.atan2 y x` is `Complex.arg ⟨x, y⟩`, `Math.hypot a b` is
  `Real.sqrt (a*a + b*b)`.
* The mutable object graph is modelled by explicit state passing: a mutating
  method `m` of `UltimateGame` becomes a function `GameState → ... → GameState`.
  The JS object reference `disc.holder` is modelled as an `Option ℕ` index into
  the `players` list (`===` on player objects becomes index equality, faithful
  because distinct list entries are distinct objects in the source).
* JS `Infinity` sentinels are modelled by `⊤ : WithTop ℝ` (for the coverage
  minima and the pre-normalised heat-map sum) or by `Option ℝ` accumulators
  (for the min/max scan of the normaliser); the update rules coincide with the
  JS comparisons against `Infinity`.
* A JS 2-dimensional array `values[x][y]` filled for `x < numCellsX`,
  `y < numCellsY` is modelled as a total function `ℕ → ℕ → ℝ` given by the
  loop body formula; claims about the grid are stated on in-range indices.
-/

namespace UltimateFrisbee

noncomputable section

open scoped Classical

/-- `this.fieldLength` hard-coded in the `UltimateField` constructor (src/field.js). -/
def fieldLength : ℝ := 70

/-- `this.fieldWidth` hard-coded in the `UltimateField` constructor (src/field.js). -/
def fieldWidth : ℝ := 40

/-- `this.endZoneDepth` hard-coded in the `UltimateField` constructor (src/field.js). -/
def endZoneDepth : ℝ := 20

/-- `this.totalLength = fieldLength + 2 * endZoneDepth` (src/field.js). -/
def totalLength : ℝ := fieldLength + endZoneDepth * 2

/-- A player object as created in `createExamplePlayers` (src/game.js). -/
structure Player where
  id : String
  team : ℕ
  x : ℝ
  y : ℝ
  color : String
  hasDisc : Bool
  isDefender : Bool
  isMark : Bool

instance : Inhabited Player :=
  ⟨⟨"", 0, 0, 0, "", false, false, false⟩⟩

/-- The disc object created in `createDisc` (src/game.js); `holder` is the index
of the referenced player in the `players` list, or `none` for JS `null`. -/
@[ext]
structure Disc where
  x : ℝ
  y : ℝ
  vx : ℝ
  vy : ℝ
  holder : Option ℕ
  inFlight : Bool

/-- `this.heatMapModesEnabled = { catch, difficulty, markingDifficulty, coverage }`
(src/game.js).  The JS key `catch` is spelled `catchMode` because `catch` is a
Lean keyword. -/
structure HeatMapModes where
  catchMode : Bool
  difficulty : Bool
  markingDifficulty : Bool
  coverage : Bool

/-- The mutable state of an `UltimateGame` instance (src/game.js constructor). -/
@[ext]
structure GameState where
  players : List Player
  disc : Disc
  team1Score : ℕ
  team2Score : ℕ
  isRunning : Bool
  heatMapGridSize : ℝ
  heatMapModesEnabled : HeatMapModes
  heatMapNormalize : Bool
  selectedPlayer : Option ℕ
  clickHitRadiusYards : ℝ

/-- `catchDisc(player)` (src/game.js lines 142-150): stops the disc, records the
catcher as holder and sets the player's `hasDisc` flag.  `i` is the index of the
player object passed in. -/
def catchDisc (s : GameState) (i : ℕ) : GameState :=
  { s with
    disc := { s.disc with inFlight := false, holder := some i, vx := 0, vy := 0 },
    players := s.players.set i { s.players.getD i default with hasDisc := true } }

/-- `const catchRadius = 2` (src/game.js line 129). -/
def catchRadius : ℝ := 2

/-- The body of the `forEach` loop of `checkCatch` (src/game.js lines 131-139)
applied to the player of index `i`. -/
def checkCatchStep (s : GameState) (i : ℕ) : GameState :=
  match s.players[i]? with
  | none => s
  | some p =>
    let dx := p.x - s.disc.x
    let dy := p.y - s.disc.y
    let distance := Real.sqrt (dx * dx + dy * dy)
    if distance < catchRadius then catchDisc s i else s

/-- `checkCatch()` (src/game.js lines 126-140): early return unless in flight,
then `players.forEach` running `checkCatchStep` on every index in order.  The
`forEach` has no early exit, so the loop keeps running after a catch. -/
def checkCatch (s : GameState) : GameState :=
  if s.disc.inFlight then (List.range s.players.length).foldl checkCatchStep s else s

/-- `update(deltaTime)` (src/game.js lines 100-124): integrate the disc flight
(position, drag 0.98, landing threshold 0.1), then run catch detection; if not
in flight, the disc snaps to its holder. -/
def update (s : GameState) (deltaTime : ℝ) : GameState :=
  if s.disc.inFlight then
    let d1 := { s.disc with x := s.disc.x + s.disc.vx * deltaTime,
                            y := s.disc.y + s.disc.vy * deltaTime }
    let d2 := { d1 with vx := d1.vx * 0.98, vy := d1.vy * 0.98 }
    let d3 := if |d2.vx| < 0.1 ∧ |d2.vy| < 0.1 then
                { d2 with inFlight := false, vx := 0, vy := 0 }
              else d2
    checkCatch { s with disc := d3 }
  else
    match s.disc.holder with
    | some i =>
      match s.players[i]? with
      | some p => { s with disc := { s.disc with x := p.x, y := p.y } }
      | none => s
    | none => s

/-- `throwDisc(targetX, targetY, speed = 30)` (src/game.js lines 152-166):
no-op without a holder; otherwise normalises the vector from the disc to the
target (with **no** guard against zero distance) and launches the disc.  In the
real-number model `0 / 0 = 0`; in JS the same expression produces `NaN`. -/
def throwDisc (s : GameState) (targetX targetY speed : ℝ) : GameState :=
  match s.disc.holder with
  | none => s
  | some hi =>
    let dx := targetX - s.disc.x
    let dy := targetY - s.disc.y
    let distance := Real.sqrt (dx * dx + dy * dy)
    { s with
      disc := { s.disc with vx := dx / distance * speed, vy := dy / distance * speed,
                            inFlight := true, holder := none },
      players := s.players.set hi { s.players.getD hi default with hasDisc := false } }

/-- `movePlayerTo(player, fieldX, fieldY)` (src/game.js lines 303-312): clamp to
field bounds, move the player of index `i`, and drag the disc along when that
player is the current holder. -/
def movePlayerTo (s : GameState) (i : ℕ) (fieldX fieldY : ℝ) : GameState :=
  let x := max 0 (min totalLength fieldX)
  let y := max 0 (min fieldWidth fieldY)
  let p := s.players.getD i default
  let s1 := { s with players := s.players.set i { p with x := x, y := y } }
  if p.hasDisc = true ∧ s.disc.holder = some i then
    { s1 with disc := { s1.disc with x := x, y := y } }
  else s1

/-- `setHeatMapModeEnabled(mode, enabled)` (src/game.js lines 314-318): only the
four own keys of `heatMapModesEnabled` are assignable; `!!enabled` is the
identity on the `Bool` argument. -/
def setHeatMapModeEnabled (s : GameState) (mode : String) (enabled : Bool) : GameState :=
  if mode = "catch" then
    { s with heatMapModesEnabled := { s.heatMapModesEnabled with catchMode := enabled } }
  else if mode = "difficulty" then
    { s with heatMapModesEnabled := { s.heatMapModesEnabled with difficulty := enabled } }
  else if mode = "markingDifficulty" then
    { s with heatMapModesEnabled := { s.heatMapModesEnabled with markingDifficulty := enabled } }
  else if mode = "coverage" then
    { s with heatMapModesEnabled := { s.heatMapModesEnabled with coverage := enabled } }
  else s

/-- `isAnyHeatMapEnabled()` (src/game.js lines 324-326). -/
def isAnyHeatMapEnabled (s : GameState) : Bool :=
  s.heatMapModesEnabled.catchMode || s.heatMapModesEnabled.difficulty ||
    s.heatMapModesEnabled.markingDifficulty || s.heatMapModesEnabled.coverage

/-- The four players pushed by `createExamplePlayers` (src/game.js lines 36-84). -/
def examplePlayers : List Player :=
  [ { id := "offense_1", team := 1, x := 80, y := 15, color := "#ef4444",
      hasDisc := true, isDefender := false, isMark := false },
    { id := "mark_1", team := 2, x := 79, y := 16, color := "#3b82f6",
      hasDisc := false, isDefender := true, isMark := true },
    { id := "offense_2", team := 1, x := 55, y := 15, color := "#ef4444",
      hasDisc := false, isDefender := false, isMark := false },
    { id := "defender_2", team := 2, x := 55, y := 14, color := "#3b82f6",
      hasDisc := false, isDefender := true, isMark := false } ]

/-- `createDisc()` (src/game.js lines 86-98): the holder is the first player
with `hasDisc`, and the disc starts at the holder's position (or `(80, 15)`). -/
def createDisc (players : List Player) : Disc :=
  match players.findIdx? (fun p => p.hasDisc) with
  | some i =>
    { x := (players.getD i default).x, y := (players.getD i default).y,
      vx := 0, vy := 0, holder := some i, inFlight := false }
  | none => { x := 80, y := 15, vx := 0, vy := 0, holder := none, inFlight := false }

/-- The game state right after the constructor ran `createExamplePlayers` and
`createDisc` (src/game.js constructor fields, lines 7-28). -/
def initialGame : GameState :=
  { players := examplePlayers
    disc := createDisc examplePlayers
    team1Score := 0
    team2Score := 0
    isRunning := false
    heatMapGridSize := 1
    heatMapModesEnabled :=
      { catchMode := false, difficulty := false, markingDifficulty := false, coverage := false }
    heatMapNormalize := true
    selectedPlayer := none
    clickHitRadiusYards := 2 }

/-- `Math.atan2(y, x)`, modelled by the argument of the complex number
`x + y i` (both lie in `(-π, π]` and agree on every quadrant and axis). -/
def atan2 (y x : ℝ) : ℝ := Complex.arg ⟨x, y⟩

/-- The absolute angle between the plane vectors `(vX, vY)` and `(wX, wY)`,
computed the way the source computes it: `|atan2(cross, dot)|`.  It is
invariant under positive rescaling of either vector, so it equals the angle
the code computes from the *normalised* vectors. -/
def absAngleBetween (vX vY wX wY : ℝ) : ℝ :=
  |atan2 (vX * wY - vY * wX) (vX * wX + vY * wY)|

/-- `calculateEaseAt(throwerX, throwerY, targetX, targetY)` (src/game.js lines
187-215): mark vector toward `(20, 40)`, guards at length `0.001`, signed angle
via `atan2(cross, dot)` of the normalised vectors, ease ramps to 1 at `π/4`. -/
def calculateEaseAt (throwerX throwerY targetX targetY : ℝ) : ℝ :=
  let markX := 20 - throwerX
  let markY := 40 - throwerY
  let throwX := targetX - throwerX
  let throwY := targetY - throwerY
  let markLength := Real.sqrt (markX * markX + markY * markY)
  if markLength < 0.001 then 1 else
  let mX := markX / markLength
  let mY := markY / markLength
  let throwLength := Real.sqrt (throwX * throwX + throwY * throwY)
  if throwLength < 0.001 then 0 else
  let tX := throwX / throwLength
  let tY := throwY / throwLength
  let dotProduct := mX * tX + mY * tY
  let crossProduct := mX * tY - mY * tX
  let angle := atan2 crossProduct dotProduct
  let absAngle := |angle|
  let quarterPi := Real.pi / 4
  if absAngle ≥ quarterPi then 1 else absAngle / quarterPi

/-- `calculateMarkingDifficultyAt` (src/game.js lines 174-185). -/
def calculateMarkingDifficultyAt (s : GameState) (throwerX throwerY targetX targetY : ℝ) : ℝ :=
  let ease := calculateEaseAt throwerX throwerY targetX targetY
  let dx := targetX - s.disc.x
  let dy := targetY - s.disc.y
  let distanceFromDisc := Real.sqrt (dx * dx + dy * dy)
  let distanceFactor := 1 - distanceFromDisc / 60 / 3
  let distanceFactor := if distanceFactor < 0 then 0 else distanceFactor
  1 - (1 - ease) * distanceFactor

/-- `calculateDifficultyAt(x, y)` (src/game.js lines 222-233). -/
def calculateDifficultyAt (s : GameState) (x y : ℝ) : ℝ :=
  let dx := x - s.disc.x
  let dy := y - s.disc.y
  let dist := Real.sqrt (dx * dx + dy * dy)
  if dist ≤ 0 then 0 else
  let distSq := dist * dist
  Real.sqrt distSq / 80

/-- `calculateCatchValue(x, y)` (src/game.js lines 240-274).  Note that this
variant uses the disc's current `x` as the back reference
(`discVerticalPosition`), not the fixed own-end-zone line. -/
def calculateCatchValue (s : GameState) (x y : ℝ) : ℝ :=
  let offenseEndZoneEnd := endZoneDepth
  let discVerticalPosition := s.disc.x
  if x ≤ offenseEndZoneEnd then 1
  else if x ≥ discVerticalPosition then 0
  else
    let progress := (discVerticalPosition - x) / fieldLength
    let positionValue := max 0 (min 1 progress)
    let positionValue := positionValue / 2 + 1 / 2
    let fieldCenterY := fieldWidth / 2
    let distanceFromCenter := |y - fieldCenterY|
    let sideBoundary : ℝ := 10
    let centerBonus : ℝ :=
      if distanceFromCenter > fieldCenterY - sideBoundary then
        let distanceFromSideline := fieldCenterY - distanceFromCenter
        let normalizedDist := distanceFromSideline / sideBoundary
        1 - (1 - normalizedDist) * 0.5 - 0.7 * (1 - normalizedDist) ^ 8
      else 1
    max 0 (min 1 (positionValue * centerBonus))

/-- The centre `i * gridSize + gridSize / 2` of grid cell `i` (the expression
`x * gridSize + gridSize / 2` of the layer loops in src/game.js). -/
def cellCenter (gridSize : ℝ) (i : ℕ) : ℝ := i * gridSize + gridSize / 2

/-- All grid cells `(x, y)` in the iteration order of the nested
`for x ... for y ...` loops of src/game.js: `x` outer (increasing),
`y` inner (increasing). -/
def gridCells (nX nY : ℕ) : List (ℕ × ℕ) :=
  (List.range nX).flatMap fun x => (List.range nY).map fun y => (x, y)

/-- The `{ values }` record returned by the simple layer builders. -/
structure Layer where
  values : ℕ → ℕ → ℝ

/-- The `{ values, throwerX, throwerY }` record of the marking layer. -/
structure MarkingLayer where
  values : ℕ → ℕ → ℝ
  throwerX : ℝ
  throwerY : ℝ

/-- `_getCoverageLayer(numCellsX, numCellsY, gridSize)` (src/game.js lines
342-372): per cell the minimum of the closer-defender test (`0`/`1`) and the
half-disc-distance test (`0.5`/`1`); the defender minimum gets a fixed `+ 2`
penalty.  The `Infinity` initialisers of the distance minima are `⊤`. -/
def _getCoverageLayer (s : GameState) (numCellsX numCellsY : ℕ) (gridSize : ℝ) : Layer :=
  let offense := s.players.filter fun p => !p.isDefender && !p.hasDisc
  let defense := s.players.filter fun p => p.isDefender && !p.isMark
  { values := fun x y =>
      let cellX := cellCenter gridSize x
      let cellY := cellCenter gridSize y
      let discToSquare := Real.sqrt ((cellX - s.disc.x) * (cellX - s.disc.x) +
        (cellY - s.disc.y) * (cellY - s.disc.y))
      let minOffenseDist : WithTop ℝ := offense.foldl
        (fun m p =>
          let d : ℝ := Real.sqrt ((cellX - p.x) * (cellX - p.x) + (cellY - p.y) * (cellY - p.y))
          if (d : WithTop ℝ) < m then (d : WithTop ℝ) else m) ⊤
      let minDefenseDist : WithTop ℝ := defense.foldl
        (fun m p =>
          let d : ℝ := Real.sqrt ((cellX - p.x) * (cellX - p.x) + (cellY - p.y) * (cellY - p.y))
          if (d : WithTop ℝ) < m then (d : WithTop ℝ) else m) ⊤
      let minDefenseDist : WithTop ℝ := minDefenseDist + (2 : ℝ)
      let fromCloser : ℝ := if minOffenseDist ≥ minDefenseDist then 0 else 1
      let fromHalfDisc : ℝ := if minDefenseDist < ((discToSquare / 2 : ℝ) : WithTop ℝ) then 0.5 else 1
      min fromCloser fromHalfDisc }

/-- `_getCatchLayer` (src/game.js lines 374-385). -/
def _getCatchLayer (s : GameState) (numCellsX numCellsY : ℕ) (gridSize : ℝ) : Layer :=
  { values := fun x y => calculateCatchValue s (cellCenter gridSize x) (cellCenter gridSize y) }

/-- `_getDifficultyLayer` (src/game.js lines 387-408): raw difficulty per cell,
then (when the grid maximum is positive) each cell becomes
`max(0.2, value / maxDifficulty) / 2`. -/
def _getDifficultyLayer (s : GameState) (numCellsX numCellsY : ℕ) (gridSize : ℝ) : Layer :=
  let raw : ℕ → ℕ → ℝ := fun x y =>
    calculateDifficultyAt s (cellCenter gridSize x) (cellCenter gridSize y)
  let maxDifficulty : ℝ := (gridCells numCellsX numCellsY).foldl
    (fun m c => if raw c.1 c.2 > m then raw c.1 c.2 else m) 0
  { values := fun x y =>
      if maxDifficulty > 0 then max 0.2 (raw x y / maxDifficulty) / 2 else raw x y }

/-- `_getMarkingDifficultyLayer` (src/game.js lines 410-425): `null` when no
player holds the disc, otherwise the marking-difficulty grid seen from the
first player with `hasDisc`. -/
def _getMarkingDifficultyLayer (s : GameState) (numCellsX numCellsY : ℕ) (gridSize : ℝ) :
    Option MarkingLayer :=
  match s.players.find? (fun p => p.hasDisc) with
  | none => none
  | some playerWithDisc =>
    some { values := fun x y =>
             calculateMarkingDifficultyAt s playerWithDisc.x playerWithDisc.y
               (cellCenter gridSize x) (cellCenter gridSize y),
           throwerX := playerWithDisc.x,
           throwerY := playerWithDisc.y }

/-- One entry of the `layers` array of `calculateHeatMap` (src/game.js): the
spread `{ key, ...layer }`; `thrower` is `some _` exactly on the marking layer,
whose spread carries `throwerX`/`throwerY`. -/
structure KeyedLayer where
  key : String
  values : ℕ → ℕ → ℝ
  thrower : Option (ℝ × ℝ)

/-- The `HeatMapData` object returned by `calculateHeatMap` (src/game.js). -/
structure HeatMapData where
  gridSize : ℝ
  values : ℕ → ℕ → ℝ
  throwerX : ℝ
  throwerY : ℝ
  mode : String

/-- `calculateHeatMap()` (src/game.js lines 427-498): `null` when no mode is
enabled or no layer was produced; otherwise the per-cell product of the enabled
layers (difficulty inverted) with optional min/max normalisation.  The
`Infinity` / `-Infinity` accumulators of the normalisation scan are modelled by
`Option ℝ` (`none` = not yet seen, which the JS comparisons against
`±Infinity` always replace at the first cell). -/
def calculateHeatMap (s : GameState) : Option HeatMapData :=
  if isAnyHeatMapEnabled s then
    let gridSize := s.heatMapGridSize
    let numCellsX : ℕ := ⌈totalLength / gridSize⌉₊
    let numCellsY : ℕ := ⌈fieldWidth / gridSize⌉₊
    let enabled := s.heatMapModesEnabled
    let layers : List KeyedLayer :=
      (if enabled.catchMode then
        [{ key := "catch", values := (_getCatchLayer s numCellsX numCellsY gridSize).values,
           thrower := none }] else []) ++
      (if enabled.difficulty then
        [{ key := "difficulty", values := (_getDifficultyLayer s numCellsX numCellsY gridSize).values,
           thrower := none }] else []) ++
      (if enabled.markingDifficulty then
        match _getMarkingDifficultyLayer s numCellsX numCellsY gridSize with
        | some layer =>
          [{ key := "markingDifficulty", values := layer.values,
             thrower := some (layer.throwerX, layer.throwerY) }]
        | none => []
       else []) ++
      (if enabled.coverage then
        [{ key := "coverage", values := (_getCoverageLayer s numCellsX numCellsY gridSize).values,
           thrower := none }] else [])
    match layers with
    | [] => none
    | l0 :: rest =>
      let tw : ℝ × ℝ :=
        match (l0 :: rest).find? (fun l => l.thrower.isSome) with
        | some l => l.thrower.getD (s.disc.x, s.disc.y)
        | none => (s.disc.x, s.disc.y)
      let combined : ℕ → ℕ → ℝ := fun x y =>
        (l0 :: rest).foldl
          (fun product l =>
            product * (if l.key = "difficulty" then 1 - l.values x y else l.values x y)) 1
      let values : ℕ → ℕ → ℝ :=
        if s.heatMapNormalize then
          let mn : Option ℝ := (gridCells numCellsX numCellsY).foldl
            (fun m c => match m with
              | none => some (combined c.1 c.2)
              | some mv => if combined c.1 c.2 < mv then some (combined c.1 c.2) else some mv) none
          let mx : Option ℝ := (gridCells numCellsX numCellsY).foldl
            (fun m c => match m with
              | none => some (combined c.1 c.2)
              | some mv => if combined c.1 c.2 > mv then some (combined c.1 c.2) else some mv) none
          match mn, mx with
          | some mnv, some mxv =>
            if mxv - mnv > 0 then fun x y => (combined x y - mnv) / (mxv - mnv) else combined
          | _, _ => combined
        else combined
      some { gridSize := gridSize, values := values, throwerX := tw.1, throwerY := tw.2,
             mode := if (l0 :: rest).length > 1 then "combined" else l0.key }
  else none

/-- `_getCombinedHeatMapSumPreNormalized()` (src/game.js lines 505-529):
`Infinity` (modelled `⊤`) without a thrower, otherwise the grid-wide sum of the
four-layer product `catch * (1 - difficulty) * marking * coverage`. -/
def _getCombinedHeatMapSumPreNormalized (s : GameState) : WithTop ℝ :=
  let gridSize := s.heatMapGridSize
  let numCellsX : ℕ := ⌈totalLength / gridSize⌉₊
  let numCellsY : ℕ := ⌈fieldWidth / gridSize⌉₊
  let catchLayer := _getCatchLayer s numCellsX numCellsY gridSize
  let diffLayer := _getDifficultyLayer s numCellsX numCellsY gridSize
  let coverageLayer := _getCoverageLayer s numCellsX numCellsY gridSize
  match _getMarkingDifficultyLayer s numCellsX numCellsY gridSize with
  | none => ⊤
  | some markingLayer =>
    (((gridCells numCellsX numCellsY).foldl
      (fun sum c =>
        sum + catchLayer.values c.1 c.2 * (1 - diffLayer.values c.1 c.2) *
          markingLayer.values c.1 c.2 * coverageLayer.values c.1 c.2) (0 : ℝ) : ℝ) : WithTop ℝ)

/-- The accumulator of the candidate loop of `positionDefenderOptimal`: the
threaded mutable game state, `bestSum`, `bestX`, `bestY`. -/
structure DefenderSearchAcc where
  state : GameState
  bestSum : WithTop ℝ
  bestX : ℝ
  bestY : ℝ

/-- The body of the nested candidate loops of `positionDefenderOptimal`
(src/game.js lines 563-582) for candidate cell `c`, defender index `di` and the
offender position `(ox, oy)` read from the offender found before the loop. -/
def defenderSearchStep (di : ℕ) (ox oy : ℝ) (gridSize : ℝ) (acc : DefenderSearchAcc)
    (c : ℕ × ℕ) : DefenderSearchAcc :=
  let cellCenterX := cellCenter gridSize c.1
  let cellCenterY := cellCenter gridSize c.2
  let dx := cellCenterX - ox
  let dy := cellCenterY - oy
  if dx * dx + dy * dy > 5 * 5 then acc else
  let clampedX := max 0 (min totalLength cellCenterX)
  let clampedY := max 0 (min fieldWidth cellCenterY)
  let s1 := movePlayerTo acc.state di clampedX clampedY
  let sum := _getCombinedHeatMapSumPreNormalized s1
  if sum < acc.bestSum then
    { state := s1, bestSum := sum, bestX := clampedX, bestY := clampedY }
  else
    { state := s1, bestSum := acc.bestSum, bestX := acc.bestX, bestY := acc.bestY }

/-- `positionDefenderOptimal()` (src/game.js lines 545-585): find the first
downfield defender and the first offender without the disc, try every grid cell
within 5 yards of the offender (moving the defender there and recomputing the
pre-normalised combined sum), and finally move the defender to the best cell
(strict improvement keeps the first minimum). -/
def positionDefenderOptimal (s : GameState) : GameState :=
  match s.players.findIdx? (fun p => p.isDefender && !p.isMark) with
  | none => s
  | some di =>
    match s.players.findIdx? (fun p => !p.isDefender && !p.hasDisc) with
    | none => s
    | some oi =>
      let offender := s.players.getD oi default
      let gridSize := s.heatMapGridSize
      let numCellsX : ℕ := ⌈totalLength / gridSize⌉₊
      let numCellsY : ℕ := ⌈fieldWidth / gridSize⌉₊
      let downfieldDefender := s.players.getD di default
      let acc0 : DefenderSearchAcc :=
        { state := s, bestSum := ⊤, bestX := downfieldDefender.x, bestY := downfieldDefender.y }
      let accF := (gridCells numCellsX numCellsY).foldl
        (defenderSearchStep di offender.x offender.y gridSize) acc0
      movePlayerTo accF.state di accF.bestX accF.bestY

/-- The clamped x coordinate of candidate cell `c` in the defender search
(`clampedX` in src/game.js line 571). -/
def clampedCellX (gridSize : ℝ) (c : ℕ × ℕ) : ℝ :=
  max 0 (min totalLength (cellCenter gridSize c.1))

/-- The clamped y coordinate of candidate cell `c` (src/game.js line 572). -/
def clampedCellY (gridSize : ℝ) (c : ℕ × ℕ) : ℝ :=
  max 0 (min fieldWidth (cellCenter gridSize c.2))

/-- The state obtained from `s` by moving the defender of index `di` to the
(clamped) centre of candidate cell `c`, as the search loop does. -/
def moveDefenderTo (s : GameState) (di : ℕ) (gridSize : ℝ) (c : ℕ × ℕ) : GameState :=
  movePlayerTo s di (clampedCellX gridSize c) (clampedCellY gridSize c)

/-- The score of candidate cell `c` in the defender search: the
pre-normalisation combined heat-map sum with the defender moved to `c`. -/
def defenderSumAt (s : GameState) (di : ℕ) (gridSize : ℝ) (c : ℕ × ℕ) : WithTop ℝ :=
  _getCombinedHeatMapSumPreNormalized (moveDefenderTo s di gridSize c)

/-- Candidate cell `c`'s centre lies within 5 yards of `(ox, oy)` — the
non-skip condition of the defender search loop (src/game.js line 569). -/
def withinFiveYards (ox oy gridSize : ℝ) (c : ℕ × ℕ) : Prop :=
  (cellCenter gridSize c.1 - ox) * (cellCenter gridSize c.1 - ox) +
    (cellCenter gridSize c.2 - oy) * (cellCenter gridSize c.2 - oy) ≤ 5 * 5

/-- `c` is the *first* minimiser of `f` among the elements of `l` satisfying
`P`, in list order: everything before it (that satisfies `P`) is strictly
worse, everything after it is no better. -/
def IsFirstMin {α : Type} (f : α → WithTop ℝ) (P : α → Prop) (l : List α) (c : α) : Prop :=
  ∃ l1 l2, l = l1 ++ c :: l2 ∧ P c ∧
    (∀ e ∈ l1, P e → f c < f e) ∧ (∀ e ∈ l2, P e → f c ≤ f e)

/-- The invariant on the threaded state of the defender search loop: the state
is the original one or the original one with the defender moved to some
candidate cell (all other fields untouched, since `movePlayerTo` writes
absolute coordinates). -/
def SearchInv (s : GameState) (di : ℕ) (gridSize : ℝ) (st : GameState) : Prop :=
  st = s ∨ ∃ c : ℕ × ℕ, st = moveDefenderTo s di gridSize c

/-! ## The earlier game-logic variant src/unnamed/part_000 (namespace `V0`)

Only the two scalar-field functions that differ materially from src/game.js
and are cited by the claims are embedded: `calculateEaseAt` (mark reference
point `(0, 40)`, ease cutoff `π/2`) and `calculateCatchValue` (fixed
own-end-zone back threshold, quartic centre falloff). -/

namespace V0

/-- `calculateEaseAt` of src/unnamed/part_000 (lines 292-320): mark vector
toward `(0, 40)`, guards at length `0.001`, ease 0 at angle 0 ramping linearly
to 1 at `π/2` and clamped to 1 beyond. -/
def calculateEaseAt (throwerX throwerY targetX targetY : ℝ) : ℝ :=
  let markX := 0 - throwerX
  let markY := 40 - throwerY
  let throwX := targetX - throwerX
  let throwY := targetY - throwerY
  let markLength := Real.sqrt (markX * markX + markY * markY)
  if markLength < 0.001 then 1 else
  let mX := markX / markLength
  let mY := markY / markLength
  let throwLength := Real.sqrt (throwX * throwX + throwY * throwY)
  if throwLength < 0.001 then 0 else
  let tX := throwX / throwLength
  let tY := throwY / throwLength
  let dotProduct := mX * tX + mY * tY
  let crossProduct := mX * tY - mY * tX
  let angle := atan2 crossProduct dotProduct
  let absAngle := |angle|
  let halfPi := Real.pi / 2
  if absAngle ≥ halfPi then 1 else absAngle / halfPi

/-- `calculateCatchValue` of src/unnamed/part_000 (lines 338-360): 1 in the
scoring end zone, 0 at and behind the fixed own-end-zone line
`endZoneDepth + fieldLength`, linear ramp in between, quartic centre bonus. -/
def calculateCatchValue (x y : ℝ) : ℝ :=
  let offenseEndZoneEnd := endZoneDepth
  let ownEndZoneStart := endZoneDepth + fieldLength
  if x ≤ offenseEndZoneEnd then 1
  else if x ≥ ownEndZoneStart then 0
  else
    let progress := (ownEndZoneStart - x) / fieldLength
    let positionValue := max 0 (min 1 progress)
    let fieldCenterY := fieldWidth / 2
    let distanceFromCenter := |y - fieldCenterY|
    let centerBonus := 1 - distanceFromCenter / (fieldWidth / 2) * 0.5 -
      1 * (distanceFromCenter ^ 4 / (fieldWidth / 2) ^ 4)
    max 0 (min 1 (positionValue * centerBonus))

end V0

/-! ## Derived notions and concrete scenario states used by the claims -/

/-- `player.hasDisc` of the player at index `i`, `false` when out of range. -/
def hasDiscAt (s : GameState) (i : ℕ) : Bool :=
  match s.players[i]? with
  | some p => p.hasDisc
  | none => false

/-- Player `i` exists and lies strictly within `catchRadius` of the disc
position of `s` — the test of the `checkCatch` loop body. -/
def withinCatchRadius (s : GameState) (i : ℕ) : Prop :=
  ∃ p, s.players[i]? = some p ∧
    Real.sqrt ((p.x - s.disc.x) * (p.x - s.disc.x) + (p.y - s.disc.y) * (p.y - s.disc.y)) <
      catchRadius

/-- `s` agrees with `s0` on everything the `checkCatch` loop test reads: the
disc position and every player's position.  `catchDisc` only touches `hasDisc`
and the disc's velocity/holder/flight flags, so this is invariant along the
loop. -/
def PosInv (s0 s : GameState) : Prop :=
  s.disc.x = s0.disc.x ∧ s.disc.y = s0.disc.y ∧
    ∀ i : ℕ, (s.players[i]?).map (fun p : Player => (p.x, p.y)) =
      (s0.players[i]?).map (fun p : Player => (p.x, p.y))

/-- The intermediate state of `update` on an in-flight tick right before
`checkCatch` runs, assuming the landing threshold did not trigger: disc moved
by `velocity * deltaTime` and velocity dragged by `0.98`. -/
def integrated (s : GameState) (deltaTime : ℝ) : GameState :=
  { s with disc := { s.disc with
      x := s.disc.x + s.disc.vx * deltaTime,
      y := s.disc.y + s.disc.vy * deltaTime,
      vx := s.disc.vx * 0.98,
      vy := s.disc.vy * 0.98 } }

/-- A state with no disc holder (every `hasDisc` cleared) and both the
markingDifficulty and catch heat-map modes enabled. -/
def noThrowerState : GameState :=
  { initialGame with
    players := examplePlayers.map fun p => { p with hasDisc := false },
    disc := { initialGame.disc with holder := none },
    heatMapModesEnabled :=
      { catchMode := true, difficulty := false, markingDifficulty := true, coverage := false } }

/-- A state whose disc sits at `x = 100`, inside the right (own) end zone —
reachable from the initial state with `movePlayerTo(offense_1, 100, 15)`. -/
def farDiscState : GameState :=
  { initialGame with disc := Disc.mk 100 15 0 0 (some 0) false }

/-- The state after `throwDisc(55, 15, 30)` from the initial state: the throw
vector is `(-25, 0)`, of length 25, so the disc launches with velocity
`(-30, 0)` toward `offense_2`. -/
def thrownState : GameState :=
  { initialGame with
    players :=
      [ { id := "offense_1", team := 1, x := 80, y := 15, color := "#ef4444",
          hasDisc := false, isDefender := false, isMark := false },
        { id := "mark_1", team := 2, x := 79, y := 16, color := "#3b82f6",
          hasDisc := false, isDefender := true, isMark := true },
        { id := "offense_2", team := 1, x := 55, y := 15, color := "#ef4444",
          hasDisc := false, isDefender := false, isMark := false },
        { id := "defender_2", team := 2, x := 55, y := 14, color := "#3b82f6",
          hasDisc := false, isDefender := true, isMark := false } ],
    disc := { x := 80, y := 15, vx := -30, vy := 0, holder := none, inFlight := true } }

/-- `thrownState` after the flight integration of `update` with
`deltaTime = 5/6` seconds (one slow frame): the disc reaches `(55, 15)`, the
position of `offense_2` and 1 yard from `defender_2`. -/
def movedState : GameState :=
  { thrownState with
    disc := { x := 55, y := 15, vx := -30 * 0.98, vy := 0 * 0.98, holder := none,
              inFlight := true } }

/-- `movedState` after the `checkCatch` loop processed players 0, 1 and 2:
`offense_2` (index 2) caught the disc. -/
def caughtState2 : GameState :=
  { movedState with
    players :=
      [ { id := "offense_1", team := 1, x := 80, y := 15, color := "#ef4444",
          hasDisc := false, isDefender := false, isMark := false },
        { id := "mark_1", team := 2, x := 79, y := 16, color := "#3b82f6",
          hasDisc := false, isDefender := true, isMark := true },
        { id := "offense_2", team := 1, x := 55, y := 15, color := "#ef4444",
          hasDisc := true, isDefender := false, isMark := false },
        { id := "defender_2", team := 2, x := 55, y := 14, color := "#3b82f6",
          hasDisc := false, isDefender := true, isMark := false } ],
    disc := { x := 55, y := 15, vx := 0, vy := 0, holder := some 2, inFlight := false } }

/-- `movedState` after the whole `checkCatch` loop: `defender_2` (index 3) was
*also* within the catch radius, so the loop ran `catchDisc` a second time —
both players keep `hasDisc = true` and the holder is the *last* one. -/
def caughtState3 : GameState :=
  { movedState with
    players :=
      [ { id := "offense_1", team := 1, x := 80, y := 15, color := "#ef4444",
          hasDisc := false, isDefender := false, isMark := false },
        { id := "mark_1", team := 2, x := 79, y := 16, color := "#3b82f6",
          hasDisc := false, isDefender := true, isMark := true },
        { id := "offense_2", team := 1, x := 55, y := 15, color := "#ef4444",
          hasDisc := true, isDefender := false, isMark := false },
        { id := "defender_2", team := 2, x := 55, y := 14, color := "#3b82f6",
          hasDisc := true, isDefender := true, isMark := false } ],
    disc := { x := 55, y := 15, vx := 0, vy := 0, holder := some 3, inFlight := false } }

/-! ## Claim C10: frame effect of `setHeatMapModeEnabled` -/

/-- **C10.** `setHeatMapModeEnabled(mode, enabled)` modifies at most the named
flag: for a `mode` other than the four keys the state is completely unchanged;
for each of the four keys exactly that flag is set to the (boolean) `enabled`
and the other three flags (and the rest of the state) are unchanged. -/
theorem setHeatMapModeEnabled_frame (s : GameState) (mode : String) (enabled : Bool) :
    (mode ∉ (["catch", "difficulty", "markingDifficulty", "coverage"] : List String) →
      setHeatMapModeEnabled s mode enabled = s) ∧
    setHeatMapModeEnabled s "catch" enabled =
      { s with heatMapModesEnabled := { s.heatMapModesEnabled with catchMode := enabled } } ∧
    setHeatMapModeEnabled s "difficulty" enabled =
      { s with heatMapModesEnabled := { s.heatMapModesEnabled with difficulty := enabled } } ∧
    setHeatMapModeEnabled s "markingDifficulty" enabled =
      { s with heatMapModesEnabled := { s.heatMapModesEnabled with markingDifficulty := enabled } } ∧
    setHeatMapModeEnabled s "coverage" enabled =
      { s with heatMapModesEnabled := { s.heatMapModesEnabled with coverage := enabled } } := by
  refine ⟨fun h => ?_, rfl, rfl, rfl, rfl⟩
  simp only [List.mem_cons, List.not_mem_nil, or_false, not_or] at h
  obtain ⟨h1, h2, h3, h4⟩ := h
  simp [setHeatMapModeEnabled, h1, h2, h3, h4]

/-- Witness for C10 at a concrete unknown mode string. -/
theorem setHeatMapModeEnabled_frame_witness :
    setHeatMapModeEnabled initialGame "normalize" true = initialGame :=
  (setHeatMapModeEnabled_frame initialGame "normalize" true).1 (by decide)

/-! ## Claim C8: coverage layer values lie in {0, 0.5, 1} -/

/-- **C8.** Every in-range cell value produced by `_getCoverageLayer` is exactly
one of `0`, `0.5`, `1`: each cell is the minimum of `fromCloser ∈ {0, 1}` and
`fromHalfDisc ∈ {0.5, 1}`. -/
theorem coverageLayer_values_mem (s : GameState) (numCellsX numCellsY : ℕ) (gridSize : ℝ)
    (x y : ℕ) (hx : x < numCellsX) (hy : y < numCellsY) :
    (_getCoverageLayer s numCellsX numCellsY gridSize).values x y ∈ ({0, 0.5, 1} : Set ℝ) := by
  simp only [_getCoverageLayer]
  split
  · split
    · norm_num [min_def]
    · norm_num [min_def]
  · split
    · norm_num [min_def]
    · norm_num [min_def]

/-- Witness for C8 at the initial state and the default 110 × 40 grid. -/
theorem coverageLayer_values_mem_witness :
    (_getCoverageLayer initialGame 110 40 1).values 0 0 ∈ ({0, 0.5, 1} : Set ℝ) :=
  coverageLayer_values_mem initialGame 110 40 1 0 0 (by decide) (by decide)

/-! ## Claim C9: `calculateHeatMap` is deterministic and read-only -/

/-- **C9.** `calculateHeatMap()` is deterministic and read-only: it is embedded
as a pure function of the game state (the source performs no assignment to any
field it reads), so two calls on states that agree on everything it reads
(players, disc, grid size, enabled modes, normalize flag; the field dimensions
are global constants) return identical value grids, and no call changes the
state. -/
theorem calculateHeatMap_deterministic (s1 s2 : GameState)
    (hp : s1.players = s2.players) (hd : s1.disc = s2.disc)
    (hg : s1.heatMapGridSize = s2.heatMapGridSize)
    (hm : s1.heatMapModesEnabled = s2.heatMapModesEnabled)
    (hn : s1.heatMapNormalize = s2.heatMapNormalize) :
    calculateHeatMap s1 = calculateHeatMap s2 := by
  obtain ⟨p1, d1, a1, b1, c1, g1, m1, n1, e1, f1⟩ := s1
  obtain ⟨p2, d2, a2, b2, c2, g2, m2, n2, e2, f2⟩ := s2
  simp only at hp hd hg hm hn
  subst hp; subst hd; subst hg; subst hm; subst hn
  rfl

/-- Witness for C9: two states differing only in fields the compositor does not
read (scores, running flag, selection) produce the same heat map. -/
theorem calculateHeatMap_deterministic_witness :
    calculateHeatMap { initialGame with team1Score := 7, isRunning := true } =
      calculateHeatMap initialGame :=
  calculateHeatMap_deterministic _ _ rfl rfl rfl rfl rfl

/-! ## Claim C1: `calculateHeatMap` with markingDifficulty enabled and no thrower -/

/-- **C1** is false as stated: with markingDifficulty enabled and no player
holding the disc, but the catch mode also enabled, `calculateHeatMap()` does
*not* return null — the null marking layer is merely skipped and the remaining
layers still produce a result. -/
theorem calculateHeatMap_noThrower_counterexample :
    (∀ p ∈ noThrowerState.players, p.hasDisc = false) ∧
    noThrowerState.heatMapModesEnabled.markingDifficulty = true ∧
    (calculateHeatMap noThrowerState).isSome = true := by
  refine ⟨?_, rfl, rfl⟩
  intro p hp
  simp only [noThrowerState, examplePlayers, List.map, List.mem_cons, List.not_mem_nil,
    or_false] at hp
  rcases hp with h | h | h | h <;> subst h <;> rfl

/-- **C1 (amended).** With markingDifficulty enabled and no player holding the
disc, the marking layer is skipped rather than aborting the whole compositor:
`calculateHeatMap()` returns null **iff** none of the other three modes is
enabled; with the catch, difficulty or coverage mode also enabled it returns a
non-null heat map without a marking layer. -/
theorem calculateHeatMap_noThrower_null_iff (s : GameState)
    (hmark : s.heatMapModesEnabled.markingDifficulty = true)
    (hnone : ∀ p ∈ s.players, p.hasDisc = false) :
    (calculateHeatMap s = none ↔
      s.heatMapModesEnabled.catchMode = false ∧ s.heatMapModesEnabled.difficulty = false ∧
        s.heatMapModesEnabled.coverage = false) := by
  have hfind : s.players.find? (fun p => p.hasDisc) = none := by
    rw [List.find?_eq_none]
    intro p hp
    simp [hnone p hp]
  have hml : ∀ nX nY g, _getMarkingDifficultyLayer s nX nY g = none := by
    intro nX nY g
    simp [_getMarkingDifficultyLayer, hfind]
  have hany : isAnyHeatMapEnabled s = true := by
    simp [isAnyHeatMapEnabled, hmark]
  cases hc : s.heatMapModesEnabled.catchMode <;>
    cases hdf : s.heatMapModesEnabled.difficulty <;>
      cases hcv : s.heatMapModesEnabled.coverage <;>
        simp [calculateHeatMap, hany, hmark, hc, hdf, hcv, hml]

/-- Witness for C1 (amended): with markingDifficulty the only enabled mode and
no disc holder, `calculateHeatMap` does return null. -/
theorem calculateHeatMap_noThrower_null_iff_witness :
    calculateHeatMap
      { noThrowerState with
        heatMapModesEnabled :=
          { catchMode := false, difficulty := false, markingDifficulty := true,
            coverage := false } } = none := by
  refine (calculateHeatMap_noThrower_null_iff _ rfl ?_).mpr ⟨rfl, rfl, rfl⟩
  intro p hp
  simp only [noThrowerState, examplePlayers, List.map, List.mem_cons, List.not_mem_nil,
    or_false] at hp
  rcases hp with h | h | h | h <;> subst h <;> rfl

/-! ## Evaluating the throw-and-double-catch scenario (shared by C2 and C3) -/

theorem throwDisc_initial : throwDisc initialGame 55 15 30 = thrownState := by
  have hdist : Real.sqrt (((55:ℝ) - 80) * (55 - 80) + ((15:ℝ) - 15) * (15 - 15)) = 25 := by
    rw [show ((55:ℝ) - 80) * (55 - 80) + ((15:ℝ) - 15) * (15 - 15) = 25 ^ 2 by norm_num]
    exact Real.sqrt_sq (by norm_num)
  refine GameState.ext rfl ?_ rfl rfl rfl rfl rfl rfl rfl rfl
  refine Disc.ext rfl rfl ?_ ?_ rfl rfl
  · show (55 - (80:ℝ)) / Real.sqrt (((55:ℝ) - 80) * (55 - 80) + ((15:ℝ) - 15) * (15 - 15)) * 30 =
      -30
    rw [hdist]; norm_num
  · show (15 - (15:ℝ)) / Real.sqrt (((55:ℝ) - 80) * (55 - 80) + ((15:ℝ) - 15) * (15 - 15)) * 30 =
      0
    rw [hdist]; norm_num

theorem update_thrown : update thrownState (5 / 6) = checkCatch movedState := by
  have hcond : ¬(|(-30:ℝ) * 0.98| < 0.1 ∧ |(0:ℝ) * 0.98| < 0.1) := by
    intro h
    have h1 := h.1
    rw [abs_lt] at h1
    norm_num at h1
  show checkCatch
      { thrownState with disc :=
        if |(-30:ℝ) * 0.98| < 0.1 ∧ |(0:ℝ) * 0.98| < 0.1 then
          { x := 80 + -30 * (5 / 6), y := 15 + 0 * (5 / 6), vx := 0, vy := 0,
            holder := none, inFlight := false }
        else
          { x := 80 + -30 * (5 / 6), y := 15 + 0 * (5 / 6), vx := -30 * 0.98, vy := 0 * 0.98,
            holder := none, inFlight := true } } = checkCatch movedState
  rw [if_neg hcond]
  congr 1
  refine GameState.ext rfl ?_ rfl rfl rfl rfl rfl rfl rfl rfl
  refine Disc.ext ?_ ?_ rfl rfl rfl rfl
  · show (80:ℝ) + -30 * (5 / 6) = 55
    norm_num
  · show (15:ℝ) + 0 * (5 / 6) = 15
    norm_num

theorem checkCatch_step0 : checkCatchStep movedState 0 = movedState := by
  have h0 : ¬(Real.sqrt (((80:ℝ) - 55) * (80 - 55) + ((15:ℝ) - 15) * (15 - 15)) < catchRadius) := by
    rw [catchRadius, Real.sqrt_lt' (by norm_num : (0:ℝ) < 2)]
    norm_num
  show (if Real.sqrt (((80:ℝ) - 55) * (80 - 55) + ((15:ℝ) - 15) * (15 - 15)) < catchRadius then
      catchDisc movedState 0 else movedState) = movedState
  rw [if_neg h0]

theorem checkCatch_step1 : checkCatchStep movedState 1 = movedState := by
  have h1 : ¬(Real.sqrt (((79:ℝ) - 55) * (79 - 55) + ((16:ℝ) - 15) * (16 - 15)) < catchRadius) := by
    rw [catchRadius, Real.sqrt_lt' (by norm_num : (0:ℝ) < 2)]
    norm_num
  show (if Real.sqrt (((79:ℝ) - 55) * (79 - 55) + ((16:ℝ) - 15) * (16 - 15)) < catchRadius then
      catchDisc movedState 1 else movedState) = movedState
  rw [if_neg h1]

theorem checkCatch_step2 : checkCatchStep movedState 2 = caughtState2 := by
  have h2 : Real.sqrt (((55:ℝ) - 55) * (55 - 55) + ((15:ℝ) - 15) * (15 - 15)) < catchRadius := by
    rw [catchRadius, Real.sqrt_lt' (by norm_num : (0:ℝ) < 2)]
    norm_num
  show (if Real.sqrt (((55:ℝ) - 55) * (55 - 55) + ((15:ℝ) - 15) * (15 - 15)) < catchRadius then
      catchDisc movedState 2 else movedState) = caughtState2
  rw [if_pos h2]
  rfl

theorem checkCatch_step3 : checkCatchStep caughtState2 3 = caughtState3 := by
  have h3 : Real.sqrt (((55:ℝ) - 55) * (55 - 55) + ((14:ℝ) - 15) * (14 - 15)) < catchRadius := by
    rw [catchRadius, Real.sqrt_lt' (by norm_num : (0:ℝ) < 2)]
    norm_num
  show (if Real.sqrt (((55:ℝ) - 55) * (55 - 55) + ((14:ℝ) - 15) * (14 - 15)) < catchRadius then
      catchDisc caughtState2 3 else caughtState2) = caughtState3
  rw [if_pos h3]
  rfl

theorem checkCatch_moved : checkCatch movedState = caughtState3 := by
  show checkCatchStep (checkCatchStep (checkCatchStep (checkCatchStep movedState 0) 1) 2) 3 =
    caughtState3
  rw [checkCatch_step0, checkCatch_step1, checkCatch_step2, checkCatch_step3]

/-- Full evaluation of the scenario: from the initial state, throw the disc at
`offense_2` and integrate one `5/6` second frame. -/
theorem scenario_eval : update (throwDisc initialGame 55 15 30) (5 / 6) = caughtState3 := by
  rw [throwDisc_initial, update_thrown, checkCatch_moved]

/-! ## General characterisation of the `checkCatch` loop -/

theorem posInv_refl (s : GameState) : PosInv s s := ⟨rfl, rfl, fun i => rfl⟩

theorem catchDisc_posInv {s0 s : GameState} (h : PosInv s0 s) (i : ℕ) :
    PosInv s0 (catchDisc s i) := by
  obtain ⟨hx, hy, hp⟩ := h
  refine ⟨hx, hy, fun k => ?_⟩
  by_cases hk : i = k
  · subst hk
    rw [← hp i]
    rcases hgi : s.players[i]? with _ | p
    · simp [catchDisc, List.getElem?_set_self', hgi]
    · simp [catchDisc, List.getElem?_set_self', hgi, List.getD_eq_getElem?_getD]
  · simp only [catchDisc]
    rw [List.getElem?_set_ne hk]
    exact hp k

theorem checkCatchStep_eq {s0 s : GameState} (h : PosInv s0 s) (i : ℕ) :
    (withinCatchRadius s0 i → checkCatchStep s i = catchDisc s i) ∧
    (¬ withinCatchRadius s0 i → checkCatchStep s i = s) := by
  obtain ⟨hx, hy, hp⟩ := h
  rcases hgi : s.players[i]? with _ | p
  · have h0 : s0.players[i]? = none := by
      have hmap := hp i
      rw [hgi] at hmap
      rcases hg0 : s0.players[i]? with _ | q
      · rfl
      · rw [hg0] at hmap; simp at hmap
    constructor
    · rintro ⟨q, hq, -⟩
      rw [h0] at hq
      cases hq
    · intro _
      simp [checkCatchStep, hgi]
  · have h0 : ∃ q, s0.players[i]? = some q ∧ q.x = p.x ∧ q.y = p.y := by
      have hmap := hp i
      rw [hgi] at hmap
      rcases hg0 : s0.players[i]? with _ | q
      · rw [hg0] at hmap; simp at hmap
      · rw [hg0] at hmap
        simp at hmap
        exact ⟨q, rfl, hmap.1.symm, hmap.2.symm⟩
    obtain ⟨q, hq, hqx, hqy⟩ := h0
    have hsame : p.x - s.disc.x = q.x - s0.disc.x ∧ p.y - s.disc.y = q.y - s0.disc.y := by
      rw [hqx, hqy, hx, hy]
      exact ⟨rfl, rfl⟩
    have hdist :
        (Real.sqrt ((p.x - s.disc.x) * (p.x - s.disc.x) + (p.y - s.disc.y) * (p.y - s.disc.y)) <
          catchRadius) ↔ withinCatchRadius s0 i := by
      rw [hsame.1, hsame.2]
      constructor
      · intro hlt
        exact ⟨q, hq, hlt⟩
      · rintro ⟨q', hq', hlt⟩
        rw [hq] at hq'
        cases hq'
        exact hlt
    constructor
    · intro hw
      simp only [checkCatchStep, hgi]
      rw [if_pos (hdist.mpr hw)]
    · intro hw
      simp only [checkCatchStep, hgi]
      rw [if_neg (fun hc => hw (hdist.mp hc))]

theorem checkCatchStep_posInv {s0 s : GameState} (h : PosInv s0 s) (i : ℕ) :
    PosInv s0 (checkCatchStep s i) := by
  rcases Classical.em (withinCatchRadius s0 i) with hw | hw
  · rw [(checkCatchStep_eq h i).1 hw]
    exact catchDisc_posInv h i
  · rw [(checkCatchStep_eq h i).2 hw]
    exact h

theorem foldl_checkCatchStep_posInv {s0 : GameState} :
    ∀ (l : List ℕ) (s : GameState), PosInv s0 s → PosInv s0 (l.foldl checkCatchStep s)
  | [], s, h => h
  | i :: t, s, h => by
    rw [List.foldl_cons]
    exact foldl_checkCatchStep_posInv t _ (checkCatchStep_posInv h i)

theorem foldl_checkCatchStep_noop {s0 : GameState} :
    ∀ (l : List ℕ) (s : GameState), PosInv s0 s →
      (∀ k ∈ l, ¬ withinCatchRadius s0 k) → l.foldl checkCatchStep s = s
  | [], s, _, _ => rfl
  | i :: t, s, h, hall => by
    rw [List.foldl_cons, (checkCatchStep_eq h i).2 (hall i (List.mem_cons_self i t))]
    exact foldl_checkCatchStep_noop t s h fun k hk => hall k (List.mem_cons_of_mem i hk)

theorem hasDiscAt_catchDisc_self {s : GameState} {i : ℕ} {p : Player}
    (hp : s.players[i]? = some p) : hasDiscAt (catchDisc s i) i = true := by
  simp [hasDiscAt, catchDisc, List.getElem?_set_self', hp, List.getD_eq_getElem?_getD]

theorem hasDiscAt_catchDisc_ne {s : GameState} {i k : ℕ} (hk : i ≠ k) :
    hasDiscAt (catchDisc s i) k = hasDiscAt s k := by
  simp only [hasDiscAt, catchDisc]
  rw [List.getElem?_set_ne hk]

theorem hasDiscAt_checkCatchStep_mono {s : GameState} {i : ℕ} (k : ℕ)
    (h : hasDiscAt s i = true) : hasDiscAt (checkCatchStep s k) i = true := by
  obtain ⟨p, hpi, hpd⟩ : ∃ p, s.players[i]? = some p ∧ p.hasDisc = true := by
    unfold hasDiscAt at h
    rcases hg : s.players[i]? with _ | p
    · rw [hg] at h; cases h
    · rw [hg] at h; exact ⟨p, rfl, h⟩
  rcases hg : s.players[k]? with _ | q
  · simpa [checkCatchStep, hg] using h
  · simp only [checkCatchStep, hg]
    split
    · by_cases hk : k = i
      · subst hk
        exact hasDiscAt_catchDisc_self hpi
      · rw [hasDiscAt_catchDisc_ne hk]
        exact h
    · exact h

theorem foldl_hasDiscAt_mono {i : ℕ} :
    ∀ (l : List ℕ) (s : GameState), hasDiscAt s i = true →
      hasDiscAt (l.foldl checkCatchStep s) i = true
  | [], s, h => h
  | k :: t, s, h => by
    rw [List.foldl_cons]
    exact foldl_hasDiscAt_mono t _ (hasDiscAt_checkCatchStep_mono k h)

theorem foldl_checkCatchStep_catches {s0 : GameState} :
    ∀ (l : List ℕ) (s : GameState), PosInv s0 s → ∀ i ∈ l, withinCatchRadius s0 i →
      hasDiscAt (l.foldl checkCatchStep s) i = true
  | i0 :: t, s, h, i, hi, hw => by
    rw [List.foldl_cons]
    rcases List.mem_cons.mp hi with rfl | hit
    · have hstep : checkCatchStep s i = catchDisc s i := (checkCatchStep_eq h i).1 hw
      have hsp : ∃ p, s.players[i]? = some p := by
        obtain ⟨q, hq, -⟩ := hw
        have hmap := h.2.2 i
        rw [hq] at hmap
        rcases hg : s.players[i]? with _ | p
        · rw [hg] at hmap; simp at hmap
        · exact ⟨p, rfl⟩
      obtain ⟨p, hp⟩ := hsp
      rw [hstep]
      exact foldl_hasDiscAt_mono t _ (hasDiscAt_catchDisc_self hp)
    · exact foldl_checkCatchStep_catches t _ (checkCatchStep_posInv h i0) i hit hw

theorem foldl_checkCatchStep_holder {s0 : GameState} :
    ∀ (l : List ℕ) (s : GameState), PosInv s0 s → l.Pairwise (· < ·) →
      ∀ j ∈ l, withinCatchRadius s0 j → (∀ k ∈ l, withinCatchRadius s0 k → k ≤ j) →
        (l.foldl checkCatchStep s).disc.holder = some j
  | i0 :: t, s, h, hpw, j, hj, hwj, hmax => by
    rw [List.foldl_cons]
    rcases List.mem_cons.mp hj with rfl | hjt
    · have hstep : checkCatchStep s j = catchDisc s j := (checkCatchStep_eq h j).1 hwj
      have hnone : ∀ k ∈ t, ¬ withinCatchRadius s0 k := by
        intro k hk hwk
        have h1 : j < k := (List.pairwise_cons.mp hpw).1 k hk
        have h2 : k ≤ j := hmax k (List.mem_cons_of_mem _ hk) hwk
        omega
      rw [hstep, foldl_checkCatchStep_noop t _ (catchDisc_posInv h j) hnone]
      rfl
    · exact foldl_checkCatchStep_holder t _ (checkCatchStep_posInv h i0)
        (List.pairwise_cons.mp hpw).2 j hjt hwj
        fun k hk hwk => hmax k (List.mem_cons_of_mem _ hk) hwk

theorem update_eq_checkCatch_integrated (s : GameState) (dt : ℝ)
    (hfl : s.disc.inFlight = true)
    (hnl : ¬(|s.disc.vx * 0.98| < 0.1 ∧ |s.disc.vy * 0.98| < 0.1)) :
    update s dt = checkCatch (integrated s dt) := by
  obtain ⟨ps, d, t1, t2, ir, g, hm, hn, sel, cr⟩ := s
  obtain ⟨dx, dy, dvx, dvy, dh, df⟩ := d
  dsimp only at hfl hnl
  subst hfl
  show checkCatch
      { players := ps,
        disc :=
          if |dvx * 0.98| < 0.1 ∧ |dvy * 0.98| < 0.1 then
            { x := dx + dvx * dt, y := dy + dvy * dt, vx := 0, vy := 0, holder := dh,
              inFlight := false }
          else
            { x := dx + dvx * dt, y := dy + dvy * dt, vx := dvx * 0.98, vy := dvy * 0.98,
              holder := dh, inFlight := true },
        team1Score := t1, team2Score := t2, isRunning := ir, heatMapGridSize := g,
        heatMapModesEnabled := hm, heatMapNormalize := hn, selectedPlayer := sel,
        clickHitRadiusYards := cr } = _
  rw [if_neg hnl]
  rfl

theorem checkCatch_eq_foldl {s : GameState} (h : s.disc.inFlight = true) :
    checkCatch s = (List.range s.players.length).foldl checkCatchStep s := by
  unfold checkCatch
  rw [h]
  rfl

/-! ## Claim C2: at most one player has the disc -/

/-- **C2** is violated by the code: from the initial state, `throwDisc(55, 15, 30)`
followed by `update(5/6)` lands the disc within the catch radius of *both*
`offense_2` (index 2, distance 0) and `defender_2` (index 3, distance 1).  The
`forEach` of `checkCatch` has no early exit, so `catchDisc` runs for both and
afterwards **two** players have `hasDisc = true` — the invariant claimed by the
spec (and assumed by the code's own `holder` / `hasDisc` syncing) is broken. -/
theorem update_two_players_hasDisc :
    hasDiscAt (update (throwDisc initialGame 55 15 30) (5 / 6)) 2 = true ∧
    hasDiscAt (update (throwDisc initialGame 55 15 30) (5 / 6)) 3 = true ∧
    (update (throwDisc initialGame 55 15 30) (5 / 6)).players.length = 4 := by
  rw [scenario_eval]
  exact ⟨rfl, rfl, rfl⟩

/-! ## Claim C3: which player catches when several are in radius -/

/-- **C3** is false as stated: in the same tick both players 2 and 3 are
strictly within the catch radius of the disc position `(55, 15)` (and players
0, 1 are not), yet `disc.holder` ends up as the **last** in-radius player
(index 3), not the first (index 2). -/
theorem checkCatch_first_wins_counterexample :
    (update (throwDisc initialGame 55 15 30) (5 / 6)).disc.x = 55 ∧
    (update (throwDisc initialGame 55 15 30) (5 / 6)).disc.y = 15 ∧
    withinCatchRadius (update (throwDisc initialGame 55 15 30) (5 / 6)) 2 ∧
    withinCatchRadius (update (throwDisc initialGame 55 15 30) (5 / 6)) 3 ∧
    ¬ withinCatchRadius (update (throwDisc initialGame 55 15 30) (5 / 6)) 0 ∧
    ¬ withinCatchRadius (update (throwDisc initialGame 55 15 30) (5 / 6)) 1 ∧
    (update (throwDisc initialGame 55 15 30) (5 / 6)).disc.holder = some 3 := by
  rw [scenario_eval]
  refine ⟨rfl, rfl, ?_, ?_, ?_, ?_, rfl⟩
  · refine ⟨_, rfl, ?_⟩
    show Real.sqrt (((55:ℝ) - 55) * (55 - 55) + ((15:ℝ) - 15) * (15 - 15)) < catchRadius
    rw [catchRadius, Real.sqrt_lt' (by norm_num : (0:ℝ) < 2)]
    norm_num
  · refine ⟨_, rfl, ?_⟩
    show Real.sqrt (((55:ℝ) - 55) * (55 - 55) + ((14:ℝ) - 15) * (14 - 15)) < catchRadius
    rw [catchRadius, Real.sqrt_lt' (by norm_num : (0:ℝ) < 2)]
    norm_num
  · rintro ⟨p, hp, hd⟩
    rw [show caughtState3.players[(0:ℕ)]? =
      some (Player.mk "offense_1" 1 80 15 "#ef4444" false false false) from rfl] at hp
    cases hp
    rw [catchRadius, Real.sqrt_lt' (by norm_num : (0:ℝ) < 2)] at hd
    have hd2 : ((80:ℝ) - 55) * (80 - 55) + ((15:ℝ) - 15) * (15 - 15) < 2 ^ 2 := hd
    norm_num at hd2
  · rintro ⟨p, hp, hd⟩
    rw [show caughtState3.players[(1:ℕ)]? =
      some (Player.mk "mark_1" 2 79 16 "#3b82f6" false true true) from rfl] at hp
    cases hp
    rw [catchRadius, Real.sqrt_lt' (by norm_num : (0:ℝ) < 2)] at hd
    have hd2 : ((79:ℝ) - 55) * (79 - 55) + ((16:ℝ) - 15) * (16 - 15) < 2 ^ 2 := hd
    norm_num at hd2

/-- **C3 (amended).** On a tick where the disc is in flight and stays in flight
after integration (the landing threshold does not trigger), and player `j` lies
strictly within the 2-yard catch radius of the post-integration disc position
while every in-radius player has index `≤ j` (i.e. `j` is the *last* such
player in the player list), the tick ends with `disc.holder = j`, and **every**
player within the radius — not only the winner — ends with `hasDisc = true`. -/
theorem update_catch_last_wins (s : GameState) (dt : ℝ) (j : ℕ)
    (hfl : s.disc.inFlight = true)
    (hnl : ¬(|s.disc.vx * 0.98| < 0.1 ∧ |s.disc.vy * 0.98| < 0.1))
    (hwj : withinCatchRadius (integrated s dt) j)
    (hmax : ∀ k, withinCatchRadius (integrated s dt) k → k ≤ j) :
    (update s dt).disc.holder = some j ∧
      ∀ i, withinCatchRadius (integrated s dt) i → hasDiscAt (update s dt) i = true := by
  have hfl2 : (integrated s dt).disc.inFlight = true := hfl
  have heq : update s dt = checkCatch (integrated s dt) :=
    update_eq_checkCatch_integrated s dt hfl hnl
  have hlt : ∀ k, withinCatchRadius (integrated s dt) k →
      k < (integrated s dt).players.length := by
    intro k hk
    obtain ⟨p, hp, -⟩ := hk
    rcases Nat.lt_or_ge k (integrated s dt).players.length with h1 | h1
    · exact h1
    · rw [List.getElem?_eq_none h1] at hp
      cases hp
  rw [heq, checkCatch_eq_foldl hfl2]
  constructor
  · exact foldl_checkCatchStep_holder _ _ (posInv_refl _)
      (List.pairwise_lt_range _) j (List.mem_range.mpr (hlt j hwj)) hwj
      fun k hk hwk => hmax k hwk
  · intro i hwi
    exact foldl_checkCatchStep_catches _ _ (posInv_refl _) i
      (List.mem_range.mpr (hlt i hwi)) hwi

/-- Witness for C3 (amended) on the concrete scenario: player 3 is the last
in-radius player, and indeed ends up as holder. -/
theorem update_catch_last_wins_witness :
    (update thrownState (5 / 6)).disc.holder = some 3 := by
  have hnl : ¬(|thrownState.disc.vx * 0.98| < 0.1 ∧ |thrownState.disc.vy * 0.98| < 0.1) := by
    intro h
    have h1 : |(-30:ℝ) * 0.98| < 0.1 := h.1
    rw [abs_lt] at h1
    norm_num at h1
  have hwj : withinCatchRadius (integrated thrownState (5 / 6)) 3 := by
    refine ⟨Player.mk "defender_2" 2 55 14 "#3b82f6" false true false, rfl, ?_⟩
    show Real.sqrt (((55:ℝ) - (80 + -30 * (5 / 6))) * (55 - (80 + -30 * (5 / 6))) +
        ((14:ℝ) - (15 + 0 * (5 / 6))) * (14 - (15 + 0 * (5 / 6)))) < catchRadius
    rw [catchRadius, Real.sqrt_lt' (by norm_num : (0:ℝ) < 2)]
    norm_num
  have hmax : ∀ k, withinCatchRadius (integrated thrownState (5 / 6)) k → k ≤ 3 := by
    intro k hk
    obtain ⟨p, hp, -⟩ := hk
    by_contra hgt
    push_neg at hgt
    rw [List.getElem?_eq_none
      (show (integrated thrownState (5 / 6)).players.length ≤ k by
        show 4 ≤ k
        omega)] at hp
    cases hp
  exact (update_catch_last_wins thrownState (5 / 6) 3 rfl hnl hwj hmax).1

/-! ## Claim C4: the zero-length throw is *not* guarded -/

/-- **C4** is false on the code (the code lacks the guard the spec requires):
with the holder at `(80, 15)` — so the disc sits at `(80, 15)` — calling
`throwDisc(80, 15, 30)` passes the only guard (`holder` non-null), computes a
throw distance of exactly `0`, and performs the division by that zero distance;
the call is *not* treated as a no-op (the disc is launched: `inFlight` becomes
true and the holder is cleared).  In JavaScript `(0 / 0) * 30` is `NaN`, so both
velocity components become `NaN`, contradicting the claimed guard; in this
real-number model the division by zero is visible as the zero divisor below
(`0 / 0 = 0` in `ℝ`). -/
theorem throwDisc_zero_distance_unguarded :
    initialGame.disc.holder = some 0 ∧
    (throwDisc initialGame 80 15 30).disc.vx =
      (80 - (80:ℝ)) / Real.sqrt (((80:ℝ) - 80) * (80 - 80) + ((15:ℝ) - 15) * (15 - 15)) * 30 ∧
    Real.sqrt (((80:ℝ) - 80) * (80 - 80) + ((15:ℝ) - 15) * (15 - 15)) = 0 ∧
    (throwDisc initialGame 80 15 30).disc.inFlight = true ∧
    (throwDisc initialGame 80 15 30).disc.holder = none := by
  refine ⟨rfl, rfl, ?_, rfl, rfl⟩
  rw [show ((80:ℝ) - 80) * (80 - 80) + ((15:ℝ) - 15) * (15 - 15) = 0 by norm_num]
  exact Real.sqrt_zero

/-! ## Claim C5: catch value thresholds and monotonicity at the centre line -/

theorem m01_le_one (w : ℝ) : max 0 (min 1 w) ≤ 1 := max_le zero_le_one (min_le_left 1 w)

theorem m01_nonneg (w : ℝ) : 0 ≤ max 0 (min 1 w) := le_max_left 0 _

theorem m01_mono {w1 w2 : ℝ} (h : w1 ≤ w2) : max 0 (min 1 w1) ≤ max 0 (min 1 w2) :=
  max_le_max le_rfl (min_le_min le_rfl h)

/-- `calculateCatchValue` (game.js variant) on the centre line `y = fieldWidth/2`:
the centre bonus is 1 there, leaving the pure position value. -/
theorem calculateCatchValue_at_center (s : GameState) (x : ℝ) :
    calculateCatchValue s x (fieldWidth / 2) =
      if x ≤ endZoneDepth then 1
      else if x ≥ s.disc.x then 0
      else max 0 (min 1 (max 0 (min 1 ((s.disc.x - x) / fieldLength)) / 2 + 1 / 2)) := by
  have h1 : ¬(|fieldWidth / 2 - fieldWidth / 2| > fieldWidth / 2 - 10) := by
    rw [sub_self, abs_zero, fieldWidth]
    norm_num
  simp only [calculateCatchValue]
  rw [if_neg h1, mul_one]

/-- `V0.calculateCatchValue` (part_000 variant) on the centre line: the centre
bonus is 1 there. -/
theorem V0_calculateCatchValue_at_center (x : ℝ) :
    V0.calculateCatchValue x (fieldWidth / 2) =
      if x ≤ endZoneDepth then 1
      else if x ≥ endZoneDepth + fieldLength then 0
      else max 0 (min 1 (max 0 (min 1 ((endZoneDepth + fieldLength - x) / fieldLength)))) := by
  have hb : 1 - |fieldWidth / 2 - fieldWidth / 2| / (fieldWidth / 2) * 0.5 -
      1 * (|fieldWidth / 2 - fieldWidth / 2| ^ 4 / (fieldWidth / 2) ^ 4) = 1 := by
    rw [sub_self, abs_zero, fieldWidth]
    norm_num
  simp only [V0.calculateCatchValue]
  rw [hb, mul_one]

/-- **C5** is false as stated for the game.js variant of `calculateCatchValue`:
that variant uses the disc's current `x` as the back threshold, so with the
disc at `x = 100` (inside the own end zone) the point `x = 95` lies at/behind
the own-end-zone threshold `endZoneDepth + fieldLength = 90` yet gets the
nonzero value `15/28`. -/
theorem calculateCatchValue_threshold_counterexample :
    (95:ℝ) ≥ endZoneDepth + fieldLength ∧
    calculateCatchValue farDiscState 95 (fieldWidth / 2) = 15 / 28 ∧ (15 / 28 : ℝ) ≠ 0 := by
  refine ⟨by rw [endZoneDepth, fieldLength]; norm_num, ?_, by norm_num⟩
  rw [calculateCatchValue_at_center]
  rw [if_neg (by rw [endZoneDepth]; norm_num : ¬((95:ℝ) ≤ endZoneDepth))]
  rw [if_neg (show ¬((95:ℝ) ≥ farDiscState.disc.x) by show ¬((95:ℝ) ≥ 100); norm_num)]
  have hfd : farDiscState.disc.x = 100 := rfl
  rw [hfd, fieldLength]
  rw [show max 0 (min 1 (((100:ℝ) - 95) / 70)) = 1 / 14 by
    rw [min_eq_right (by norm_num), max_eq_right (by norm_num)]
    norm_num]
  rw [min_eq_right (by norm_num), max_eq_right (by norm_num)]
  norm_num

/-- **C5 (amended).** At the centre line `y = fieldWidth/2`: both variants give
`1` for `x ≤ endZoneDepth` and are monotonically non-increasing in `x`; the
value-zero back threshold is the fixed own-end-zone line
`endZoneDepth + fieldLength` in the part_000 variant (`V0.calculateCatchValue`,
as the claim states), but the disc's *current* `x` position in the game.js
variant: outside the scoring end zone the value is `0` **iff** `x` is
at/behind the disc — at/behind the disc it is `0`, and strictly between the
end zone and the disc it is nonzero (at least `1/2`). -/
theorem calculateCatchValue_center_spec (s : GameState) (x x1 x2 : ℝ) :
    (x ≤ endZoneDepth → calculateCatchValue s x (fieldWidth / 2) = 1) ∧
    (endZoneDepth < x → s.disc.x ≤ x → calculateCatchValue s x (fieldWidth / 2) = 0) ∧
    (endZoneDepth < x → x < s.disc.x → calculateCatchValue s x (fieldWidth / 2) ≠ 0) ∧
    (x1 ≤ x2 → calculateCatchValue s x2 (fieldWidth / 2) ≤ calculateCatchValue s x1 (fieldWidth / 2)) ∧
    (x ≤ endZoneDepth → V0.calculateCatchValue x (fieldWidth / 2) = 1) ∧
    (endZoneDepth + fieldLength ≤ x → V0.calculateCatchValue x (fieldWidth / 2) = 0) ∧
    (x1 ≤ x2 → V0.calculateCatchValue x2 (fieldWidth / 2) ≤ V0.calculateCatchValue x1 (fieldWidth / 2)) := by
  refine ⟨?_, ?_, ?_, ?_, ?_, ?_, ?_⟩
  · intro hx
    rw [calculateCatchValue_at_center, if_pos hx]
  · intro hx hd
    rw [calculateCatchValue_at_center, if_neg (not_le.mpr hx), if_pos hd]
  · intro hx hd
    rw [calculateCatchValue_at_center, if_neg (not_le.mpr hx), if_neg (not_le.mpr hd)]
    have h0 := m01_nonneg ((s.disc.x - x) / fieldLength)
    have h1 : (1:ℝ) / 2 ≤
        min 1 (max 0 (min 1 ((s.disc.x - x) / fieldLength)) / 2 + 1 / 2) :=
      le_min (by norm_num) (by linarith)
    have h2 : (1:ℝ) / 2 ≤
        max 0 (min 1 (max 0 (min 1 ((s.disc.x - x) / fieldLength)) / 2 + 1 / 2)) :=
      le_trans h1 (le_max_right _ _)
    intro heq
    rw [heq] at h2
    norm_num at h2
  · intro h12
    rw [calculateCatchValue_at_center, calculateCatchValue_at_center]
    by_cases h2 : x2 ≤ endZoneDepth
    · rw [if_pos h2, if_pos (le_trans h12 h2)]
    · rw [if_neg h2]
      by_cases h1 : x1 ≤ endZoneDepth
      · rw [if_pos h1]
        by_cases hd2 : x2 ≥ s.disc.x
        · rw [if_pos hd2]; norm_num
        · rw [if_neg hd2]; exact m01_le_one _
      · rw [if_neg h1]
        by_cases hd2 : x2 ≥ s.disc.x
        · rw [if_pos hd2]
          by_cases hd1 : x1 ≥ s.disc.x
          · rw [if_pos hd1]
          · rw [if_neg hd1]; exact m01_nonneg _
        · rw [if_neg hd2, if_neg (fun h => hd2 (le_trans h h12))]
          apply m01_mono
          have hw : (s.disc.x - x2) / fieldLength ≤ (s.disc.x - x1) / fieldLength := by
            rw [fieldLength]
            gcongr
          linarith [m01_mono hw]
  · intro hx
    rw [V0_calculateCatchValue_at_center, if_pos hx]
  · intro hx
    have hx2 : ¬ x ≤ endZoneDepth := by
      rw [endZoneDepth] at hx ⊢
      rw [fieldLength] at hx
      norm_num
      linarith
    rw [V0_calculateCatchValue_at_center, if_neg hx2, if_pos hx]
  · intro h12
    rw [V0_calculateCatchValue_at_center, V0_calculateCatchValue_at_center]
    by_cases h2 : x2 ≤ endZoneDepth
    · rw [if_pos h2, if_pos (le_trans h12 h2)]
    · rw [if_neg h2]
      by_cases h1 : x1 ≤ endZoneDepth
      · rw [if_pos h1]
        by_cases hd2 : x2 ≥ endZoneDepth + fieldLength
        · rw [if_pos hd2]; norm_num
        · rw [if_neg hd2]; exact m01_le_one _
      · rw [if_neg h1]
        by_cases hd2 : x2 ≥ endZoneDepth + fieldLength
        · rw [if_pos hd2]
          by_cases hd1 : x1 ≥ endZoneDepth + fieldLength
          · rw [if_pos hd1]
          · rw [if_neg hd1]; exact m01_nonneg _
        · rw [if_neg hd2, if_neg (fun h => hd2 (le_trans h h12))]
          apply m01_mono
          apply m01_mono
          rw [fieldLength]
          gcongr

/-- Witness for C5 (amended) at concrete points: scoring end zone, behind the
disc, behind the fixed threshold, and a monotone pair. -/
theorem calculateCatchValue_center_spec_witness :
    calculateCatchValue initialGame 10 (fieldWidth / 2) = 1 ∧
    calculateCatchValue initialGame 95 (fieldWidth / 2) = 0 ∧
    calculateCatchValue initialGame 50 (fieldWidth / 2) ≠ 0 ∧
    V0.calculateCatchValue 95 (fieldWidth / 2) = 0 ∧
    calculateCatchValue initialGame 40 (fieldWidth / 2) ≤
      calculateCatchValue initialGame 30 (fieldWidth / 2) := by
  refine ⟨?_, ?_, ?_, ?_, ?_⟩
  · exact (calculateCatchValue_center_spec initialGame 10 0 0).1
      (by rw [endZoneDepth]; norm_num)
  · exact (calculateCatchValue_center_spec initialGame 95 0 0).2.1
      (by rw [endZoneDepth]; norm_num)
      (by show (80:ℝ) ≤ 95; norm_num)
  · exact (calculateCatchValue_center_spec initialGame 50 0 0).2.2.1
      (by rw [endZoneDepth]; norm_num)
      (by show (50:ℝ) < 80; norm_num)
  · exact (calculateCatchValue_center_spec initialGame 95 0 0).2.2.2.2.2.1
      (by rw [endZoneDepth, fieldLength]; norm_num)
  · exact (calculateCatchValue_center_spec initialGame 0 30 40).2.2.2.1 (by norm_num)

/-! ## Claim C6: marking ease on the mark ray and beyond the cutoff angle -/

theorem atan2_smul {y x r : ℝ} (hr : 0 < r) : atan2 (r * y) (r * x) = atan2 y x := by
  unfold atan2
  have h : (⟨r * x, r * y⟩ : ℂ) = (r : ℂ) * ⟨x, y⟩ := by
    apply Complex.ext
    · simp
    · simp
  rw [h, Complex.arg_real_mul _ hr]

/-- Normalising both vectors does not change the `atan2(cross, dot)` angle. -/
theorem atan2_normalize (mX mY tX tY L T : ℝ) (hL : 0 < L) (hT : 0 < T) :
    atan2 (mX / L * (tY / T) - mY / L * (tX / T)) (mX / L * (tX / T) + mY / L * (tY / T)) =
      atan2 (mX * tY - mY * tX) (mX * tX + mY * tY) := by
  have h1 : mX / L * (tY / T) - mY / L * (tX / T) =
      (1 / (L * T)) * (mX * tY - mY * tX) := by
    field_simp
  have h2 : mX / L * (tX / T) + mY / L * (tY / T) =
      (1 / (L * T)) * (mX * tX + mY * tY) := by
    field_simp
  rw [h1, h2, atan2_smul (by positivity)]

/-- **C6** is false as stated, in both directions, because of the `0.001`
length guards of `calculateEaseAt` (part_000 variant):
(b) with the thrower at `(0, 0)` (well away from the reference point) and the
target `(0, -1/2000)` — a throw vector of length `1/2000 < 0.001` pointing
exactly *away* from the mark, at angle `π ≥ π/2` — the guard returns `0`, not
`1`; (a) with the thrower at `(0, 40 - 1/2000)` (within `0.001` of the
reference point `(0, 40)` but not at it) and the target `(0, 42)` exactly on
the ray through the reference point, the mark-length guard returns `1`, not
`0`. -/
theorem V0_calculateEaseAt_counterexample :
    (((0:ℝ), (0:ℝ)) ≠ ((0:ℝ), (40:ℝ)) ∧
      absAngleBetween (0 - 0) (40 - 0) (0 - 0) (-1/2000 - 0) ≥ Real.pi / 2 ∧
      V0.calculateEaseAt 0 0 0 (-1/2000) = 0) ∧
    (((0:ℝ), (40:ℝ) - 1/2000) ≠ ((0:ℝ), (40:ℝ)) ∧
      (∃ t : ℝ, 0 < t ∧ (0:ℝ) - 0 = t * (0 - 0) ∧
        (42:ℝ) - (40 - 1/2000) = t * (40 - (40 - 1/2000))) ∧
      V0.calculateEaseAt 0 (40 - 1/2000) 0 42 = 1) := by
  have habs : absAngleBetween (0 - 0) (40 - 0) (0 - 0) (-1/2000 - 0) = Real.pi := by
    unfold absAngleBetween atan2
    rw [show ((0:ℝ) - 0) * (-1/2000 - 0) - (40 - 0) * (0 - 0) = 0 by norm_num]
    rw [show ((0:ℝ) - 0) * (0 - 0) + (40 - 0) * (-1/2000 - 0) = -(1/50) by norm_num]
    rw [show (⟨-(1/50), 0⟩ : ℂ) = ((-(1/50) : ℝ) : ℂ) from rfl]
    rw [Complex.arg_ofReal_of_neg (by norm_num)]
    exact abs_of_pos Real.pi_pos
  refine ⟨⟨by intro h; injection h with h1 h2; norm_num at h2, ?_, ?_⟩,
    ⟨by intro h; injection h with h1 h2; norm_num at h2, ⟨4001, by norm_num, by norm_num, by norm_num⟩, ?_⟩⟩
  · rw [habs]
    linarith [Real.pi_pos]
  · simp only [V0.calculateEaseAt]
    rw [if_neg (show ¬(Real.sqrt ((0 - (0:ℝ)) * (0 - 0) + (40 - (0:ℝ)) * (40 - 0)) < 0.001) by
      rw [show ((0:ℝ) - 0) * (0 - 0) + ((40:ℝ) - 0) * (40 - 0) = 40 ^ 2 by norm_num,
        Real.sqrt_sq (by norm_num)]
      norm_num)]
    rw [if_pos (show Real.sqrt (((0:ℝ) - 0) * (0 - 0) + ((-1/2000:ℝ) - 0) * (-1/2000 - 0)) <
        0.001 by
      rw [show ((0:ℝ) - 0) * (0 - 0) + ((-1/2000:ℝ) - 0) * (-1/2000 - 0) = (1/2000) ^ 2 by
        norm_num, Real.sqrt_sq (by norm_num)]
      norm_num)]
  · simp only [V0.calculateEaseAt]
    rw [if_pos (show Real.sqrt ((0 - (0:ℝ)) * (0 - 0) +
        (40 - ((40:ℝ) - 1/2000)) * (40 - (40 - 1/2000))) < 0.001 by
      rw [show ((0:ℝ) - 0) * (0 - 0) + (40 - ((40:ℝ) - 1/2000)) * (40 - (40 - 1/2000)) =
        (1/2000) ^ 2 by norm_num, Real.sqrt_sq (by norm_num)]
      norm_num)]

/-- **C6 (amended).** With the two `0.001` guards satisfied — the thrower at
distance at least `0.001` from the mark reference point `(0, 40)` and the
target at distance at least `0.001` from the thrower — `calculateEaseAt`
(part_000 variant) returns `0` when the target lies exactly on the ray from
the thrower through `(0, 40)`, and returns `1` whenever the absolute angle
between the throw vector and the mark vector is at least the cutoff `π/2`. -/
theorem V0_calculateEaseAt_spec (throwerX throwerY targetX targetY : ℝ)
    (hm : (0.001:ℝ) ≤
      Real.sqrt ((0 - throwerX) * (0 - throwerX) + (40 - throwerY) * (40 - throwerY)))
    (ht : (0.001:ℝ) ≤
      Real.sqrt ((targetX - throwerX) * (targetX - throwerX) +
        (targetY - throwerY) * (targetY - throwerY))) :
    ((∃ t : ℝ, 0 < t ∧ targetX - throwerX = t * (0 - throwerX) ∧
        targetY - throwerY = t * (40 - throwerY)) →
      V0.calculateEaseAt throwerX throwerY targetX targetY = 0) ∧
    (absAngleBetween (0 - throwerX) (40 - throwerY) (targetX - throwerX) (targetY - throwerY) ≥
        Real.pi / 2 →
      V0.calculateEaseAt throwerX throwerY targetX targetY = 1) := by
  have hL : 0 < Real.sqrt ((0 - throwerX) * (0 - throwerX) +
      (40 - throwerY) * (40 - throwerY)) :=
    lt_of_lt_of_le (by norm_num) hm
  have hT : 0 < Real.sqrt ((targetX - throwerX) * (targetX - throwerX) +
      (targetY - throwerY) * (targetY - throwerY)) :=
    lt_of_lt_of_le (by norm_num) ht
  constructor
  · rintro ⟨t, ht0, hrx, hry⟩
    simp only [V0.calculateEaseAt]
    rw [if_neg (not_lt.mpr hm), if_neg (not_lt.mpr ht),
      atan2_normalize _ _ _ _ _ _ hL hT, hrx, hry]
    have hc : (0 - throwerX) * (t * (40 - throwerY)) -
        (40 - throwerY) * (t * (0 - throwerX)) = 0 := by ring
    have hd : (0 - throwerX) * (t * (0 - throwerX)) +
        (40 - throwerY) * (t * (40 - throwerY)) =
        t * ((0 - throwerX) * (0 - throwerX) + (40 - throwerY) * (40 - throwerY)) := by ring
    rw [hc, hd]
    have hsum : 0 < (0 - throwerX) * (0 - throwerX) + (40 - throwerY) * (40 - throwerY) :=
      Real.sqrt_pos.mp hL
    have harg : atan2 0
        (t * ((0 - throwerX) * (0 - throwerX) + (40 - throwerY) * (40 - throwerY))) = 0 := by
      unfold atan2
      rw [show (⟨t * ((0 - throwerX) * (0 - throwerX) + (40 - throwerY) * (40 - throwerY)),
          0⟩ : ℂ) =
        ((t * ((0 - throwerX) * (0 - throwerX) + (40 - throwerY) * (40 - throwerY)) : ℝ) : ℂ)
        from rfl]
      exact Complex.arg_ofReal_of_nonneg (le_of_lt (mul_pos ht0 hsum))
    rw [harg, abs_zero, if_neg (not_le.mpr (by positivity)), zero_div]
  · intro hangle
    simp only [V0.calculateEaseAt]
    rw [if_neg (not_lt.mpr hm), if_neg (not_lt.mpr ht),
      atan2_normalize _ _ _ _ _ _ hL hT]
    rw [if_pos ?_]
    unfold absAngleBetween at hangle
    exact hangle

/-- Witness for C6 (amended): thrower `(0, 0)`, target `(0, 20)` on the ray to
the reference point `(0, 40)` — ease is 0. -/
theorem V0_calculateEaseAt_spec_witness : V0.calculateEaseAt 0 0 0 20 = 0 := by
  have hm : (0.001:ℝ) ≤
      Real.sqrt ((0 - (0:ℝ)) * (0 - 0) + (40 - (0:ℝ)) * (40 - 0)) := by
    rw [show ((0:ℝ) - 0) * (0 - 0) + ((40:ℝ) - 0) * (40 - 0) = 40 ^ 2 by norm_num,
      Real.sqrt_sq (by norm_num)]
    norm_num
  have ht : (0.001:ℝ) ≤
      Real.sqrt (((0:ℝ) - 0) * (0 - 0) + ((20:ℝ) - 0) * (20 - 0)) := by
    rw [show ((0:ℝ) - 0) * (0 - 0) + ((20:ℝ) - 0) * (20 - 0) = 20 ^ 2 by norm_num,
      Real.sqrt_sq (by norm_num)]
    norm_num
  exact (V0_calculateEaseAt_spec 0 0 0 20 hm ht).1
    ⟨1/2, by norm_num, by norm_num, by norm_num⟩

/-! ## Claim C7: machinery — `movePlayerTo` composition and the search fold -/

theorem movePlayerTo_players (s : GameState) (i : ℕ) (a b : ℝ) :
    (movePlayerTo s i a b).players =
      s.players.set i { s.players.getD i default with
        x := max 0 (min totalLength a), y := max 0 (min fieldWidth b) } := by
  simp only [movePlayerTo]
  split <;> rfl

theorem movePlayerTo_disc (s : GameState) (i : ℕ) (a b : ℝ) :
    (movePlayerTo s i a b).disc =
      if (s.players.getD i default).hasDisc = true ∧ s.disc.holder = some i then
        { s.disc with x := max 0 (min totalLength a), y := max 0 (min fieldWidth b) }
      else s.disc := by
  simp only [movePlayerTo]
  by_cases hc : (s.players.getD i default).hasDisc = true ∧ s.disc.holder = some i
  · rw [if_pos hc, if_pos hc]
  · rw [if_neg hc, if_neg hc]

theorem movePlayerTo_team1Score (s : GameState) (i : ℕ) (a b : ℝ) :
    (movePlayerTo s i a b).team1Score = s.team1Score := by
  simp only [movePlayerTo]
  split <;> rfl

theorem movePlayerTo_team2Score (s : GameState) (i : ℕ) (a b : ℝ) :
    (movePlayerTo s i a b).team2Score = s.team2Score := by
  simp only [movePlayerTo]
  split <;> rfl

theorem movePlayerTo_isRunning (s : GameState) (i : ℕ) (a b : ℝ) :
    (movePlayerTo s i a b).isRunning = s.isRunning := by
  simp only [movePlayerTo]
  split <;> rfl

theorem movePlayerTo_heatMapGridSize (s : GameState) (i : ℕ) (a b : ℝ) :
    (movePlayerTo s i a b).heatMapGridSize = s.heatMapGridSize := by
  simp only [movePlayerTo]
  split <;> rfl

theorem movePlayerTo_heatMapModesEnabled (s : GameState) (i : ℕ) (a b : ℝ) :
    (movePlayerTo s i a b).heatMapModesEnabled = s.heatMapModesEnabled := by
  simp only [movePlayerTo]
  split <;> rfl

theorem movePlayerTo_heatMapNormalize (s : GameState) (i : ℕ) (a b : ℝ) :
    (movePlayerTo s i a b).heatMapNormalize = s.heatMapNormalize := by
  simp only [movePlayerTo]
  split <;> rfl

theorem movePlayerTo_selectedPlayer (s : GameState) (i : ℕ) (a b : ℝ) :
    (movePlayerTo s i a b).selectedPlayer = s.selectedPlayer := by
  simp only [movePlayerTo]
  split <;> rfl

theorem movePlayerTo_clickHitRadiusYards (s : GameState) (i : ℕ) (a b : ℝ) :
    (movePlayerTo s i a b).clickHitRadiusYards = s.clickHitRadiusYards := by
  simp only [movePlayerTo]
  split <;> rfl

theorem movePlayerTo_disc_holder (s : GameState) (i : ℕ) (a b : ℝ) :
    (movePlayerTo s i a b).disc.holder = s.disc.holder := by
  rw [movePlayerTo_disc]
  split <;> rfl

theorem movePlayerTo_disc_vx (s : GameState) (i : ℕ) (a b : ℝ) :
    (movePlayerTo s i a b).disc.vx = s.disc.vx := by
  rw [movePlayerTo_disc]
  split <;> rfl

theorem movePlayerTo_disc_vy (s : GameState) (i : ℕ) (a b : ℝ) :
    (movePlayerTo s i a b).disc.vy = s.disc.vy := by
  rw [movePlayerTo_disc]
  split <;> rfl

theorem movePlayerTo_disc_inFlight (s : GameState) (i : ℕ) (a b : ℝ) :
    (movePlayerTo s i a b).disc.inFlight = s.disc.inFlight := by
  rw [movePlayerTo_disc]
  split <;> rfl

theorem movePlayerTo_getD_hasDisc (s : GameState) (i : ℕ) (a b : ℝ) :
    ((movePlayerTo s i a b).players.getD i default).hasDisc =
      (s.players.getD i default).hasDisc := by
  rw [movePlayerTo_players]
  rcases hlen : s.players[i]? with _ | q
  · rw [List.set_eq_of_length_le (List.getElem?_eq_none_iff.mp hlen)]
  · rw [List.getD_eq_getElem?_getD, List.getElem?_set_self', hlen,
      List.getD_eq_getElem?_getD, hlen]
    rfl

/-- Moving the same player twice is the same as the second move alone: the
positions written by `movePlayerTo` are absolute. -/
theorem movePlayerTo_twice (s : GameState) (i : ℕ) (a b a2 b2 : ℝ) :
    movePlayerTo (movePlayerTo s i a b) i a2 b2 = movePlayerTo s i a2 b2 := by
  apply GameState.ext
  · rw [movePlayerTo_players (movePlayerTo s i a b) i a2 b2,
      movePlayerTo_players s i a2 b2, movePlayerTo_players s i a b, List.set_set]
    rcases hlen : s.players[i]? with _ | q
    · rw [List.set_eq_of_length_le (List.getElem?_eq_none_iff.mp hlen),
        List.set_eq_of_length_le (List.getElem?_eq_none_iff.mp hlen)]
    · rw [List.getD_eq_getElem?_getD, List.getElem?_set_self', hlen,
        List.getD_eq_getElem?_getD, hlen]
      rfl
  · have hMg := movePlayerTo_getD_hasDisc s i a b
    have hM1 := movePlayerTo_disc_holder s i a b
    by_cases hc : (s.players.getD i default).hasDisc = true ∧ s.disc.holder = some i
    · have hc2 : ((movePlayerTo s i a b).players.getD i default).hasDisc = true ∧
          (movePlayerTo s i a b).disc.holder = some i := by
        rw [hMg, hM1]
        exact hc
      rw [movePlayerTo_disc (movePlayerTo s i a b) i a2 b2, if_pos hc2,
        movePlayerTo_disc s i a2 b2, if_pos hc, movePlayerTo_disc s i a b, if_pos hc]
    · have hc2 : ¬(((movePlayerTo s i a b).players.getD i default).hasDisc = true ∧
          (movePlayerTo s i a b).disc.holder = some i) := by
        rw [hMg, hM1]
        exact hc
      rw [movePlayerTo_disc (movePlayerTo s i a b) i a2 b2, if_neg hc2,
        movePlayerTo_disc s i a2 b2, if_neg hc, movePlayerTo_disc s i a b, if_neg hc]
  · rw [movePlayerTo_team1Score, movePlayerTo_team1Score, movePlayerTo_team1Score]
  · rw [movePlayerTo_team2Score, movePlayerTo_team2Score, movePlayerTo_team2Score]
  · rw [movePlayerTo_isRunning, movePlayerTo_isRunning, movePlayerTo_isRunning]
  · rw [movePlayerTo_heatMapGridSize, movePlayerTo_heatMapGridSize,
      movePlayerTo_heatMapGridSize]
  · rw [movePlayerTo_heatMapModesEnabled, movePlayerTo_heatMapModesEnabled,
      movePlayerTo_heatMapModesEnabled]
  · rw [movePlayerTo_heatMapNormalize, movePlayerTo_heatMapNormalize,
      movePlayerTo_heatMapNormalize]
  · rw [movePlayerTo_selectedPlayer, movePlayerTo_selectedPlayer,
      movePlayerTo_selectedPlayer]
  · rw [movePlayerTo_clickHitRadiusYards, movePlayerTo_clickHitRadiusYards,
      movePlayerTo_clickHitRadiusYards]

theorem searchInv_move {s : GameState} {di : ℕ} {g : ℝ} {st : GameState}
    (h : SearchInv s di g st) (c : ℕ × ℕ) :
    movePlayerTo st di (max 0 (min totalLength (cellCenter g c.1)))
      (max 0 (min fieldWidth (cellCenter g c.2))) = moveDefenderTo s di g c := by
  rcases h with rfl | ⟨c0, rfl⟩
  · rfl
  · exact movePlayerTo_twice s di _ _ _ _

theorem defenderSearchStep_skip (di : ℕ) (ox oy g : ℝ) (acc : DefenderSearchAcc) (c : ℕ × ℕ)
    (hP : ¬ withinFiveYards ox oy g c) :
    defenderSearchStep di ox oy g acc c = acc := by
  simp only [defenderSearchStep]
  rw [if_pos (not_le.mp hP)]

theorem defenderSearchStep_out (s : GameState) (di : ℕ) (ox oy g : ℝ)
    (acc : DefenderSearchAcc) (c : ℕ × ℕ) (hInv : SearchInv s di g acc.state)
    (hP : withinFiveYards ox oy g c) :
    defenderSearchStep di ox oy g acc c =
      if defenderSumAt s di g c < acc.bestSum then
        ⟨moveDefenderTo s di g c, defenderSumAt s di g c, clampedCellX g c, clampedCellY g c⟩
      else ⟨moveDefenderTo s di g c, acc.bestSum, acc.bestX, acc.bestY⟩ := by
  simp only [defenderSearchStep]
  rw [if_neg (not_lt.mpr hP), searchInv_move hInv c]
  rfl

theorem fold_search_keep (s : GameState) (di : ℕ) (ox oy g : ℝ) :
    ∀ (l : List (ℕ × ℕ)) (acc : DefenderSearchAcc), SearchInv s di g acc.state →
      (∀ c ∈ l, withinFiveYards ox oy g c → acc.bestSum ≤ defenderSumAt s di g c) →
      (l.foldl (defenderSearchStep di ox oy g) acc).bestSum = acc.bestSum ∧
      (l.foldl (defenderSearchStep di ox oy g) acc).bestX = acc.bestX ∧
      (l.foldl (defenderSearchStep di ox oy g) acc).bestY = acc.bestY ∧
      SearchInv s di g (l.foldl (defenderSearchStep di ox oy g) acc).state
  | [], acc, hInv, _ => ⟨rfl, rfl, rfl, hInv⟩
  | c0 :: t, acc, hInv, hall => by
    rw [List.foldl_cons]
    by_cases hP : withinFiveYards ox oy g c0
    · have hge : ¬ defenderSumAt s di g c0 < acc.bestSum :=
        not_lt.mpr (hall c0 (List.mem_cons_self c0 t) hP)
      rw [defenderSearchStep_out s di ox oy g acc c0 hInv hP, if_neg hge]
      exact fold_search_keep s di ox oy g t
        ⟨moveDefenderTo s di g c0, acc.bestSum, acc.bestX, acc.bestY⟩
        (Or.inr ⟨c0, rfl⟩) fun c hc hPc => hall c (List.mem_cons_of_mem _ hc) hPc
    · rw [defenderSearchStep_skip di ox oy g acc c0 hP]
      exact fold_search_keep s di ox oy g t acc hInv
        fun c hc hPc => hall c (List.mem_cons_of_mem _ hc) hPc

theorem fold_search_min (s : GameState) (di : ℕ) (ox oy g : ℝ) :
    ∀ (l : List (ℕ × ℕ)) (acc : DefenderSearchAcc), SearchInv s di g acc.state →
      (∃ c ∈ l, withinFiveYards ox oy g c ∧ defenderSumAt s di g c < acc.bestSum) →
      ∃ l1 c l2, l = l1 ++ c :: l2 ∧ withinFiveYards ox oy g c ∧
        defenderSumAt s di g c < acc.bestSum ∧
        (∀ e ∈ l1, withinFiveYards ox oy g e →
          defenderSumAt s di g c < defenderSumAt s di g e) ∧
        (∀ e ∈ l2, withinFiveYards ox oy g e →
          defenderSumAt s di g c ≤ defenderSumAt s di g e) ∧
        (l.foldl (defenderSearchStep di ox oy g) acc).bestSum = defenderSumAt s di g c ∧
        (l.foldl (defenderSearchStep di ox oy g) acc).bestX = clampedCellX g c ∧
        (l.foldl (defenderSearchStep di ox oy g) acc).bestY = clampedCellY g c ∧
        SearchInv s di g (l.foldl (defenderSearchStep di ox oy g) acc).state
  | [], _, _, hex => by
    rcases hex with ⟨c, hc, -⟩
    exact absurd hc (List.not_mem_nil c)
  | c0 :: t, acc, hInv, hex => by
    rw [List.foldl_cons]
    by_cases hP0 : withinFiveYards ox oy g c0
    · by_cases hlt0 : defenderSumAt s di g c0 < acc.bestSum
      · rw [defenderSearchStep_out s di ox oy g acc c0 hInv hP0, if_pos hlt0]
        by_cases hbt : ∃ c ∈ t, withinFiveYards ox oy g c ∧
            defenderSumAt s di g c < defenderSumAt s di g c0
        · obtain ⟨l1, c, l2, hsplit, hPc, hclt, hbef, haft, hsum, hx, hy, hinv2⟩ :=
            fold_search_min s di ox oy g t
              ⟨moveDefenderTo s di g c0, defenderSumAt s di g c0, clampedCellX g c0,
                clampedCellY g c0⟩
              (Or.inr ⟨c0, rfl⟩) hbt
          refine ⟨c0 :: l1, c, l2, by rw [hsplit, List.cons_append], hPc,
            lt_trans hclt hlt0, ?_, haft, hsum, hx, hy, hinv2⟩
          intro e he hPe
          rcases List.mem_cons.mp he with rfl | he2
          · exact hclt
          · exact hbef e he2 hPe
        · push_neg at hbt
          obtain ⟨hsum, hx, hy, hinv2⟩ := fold_search_keep s di ox oy g t
            ⟨moveDefenderTo s di g c0, defenderSumAt s di g c0, clampedCellX g c0,
              clampedCellY g c0⟩
            (Or.inr ⟨c0, rfl⟩) hbt
          exact ⟨[], c0, t, rfl, hP0, hlt0, fun e he => absurd he (List.not_mem_nil e),
            hbt, hsum, hx, hy, hinv2⟩
      · rw [defenderSearchStep_out s di ox oy g acc c0 hInv hP0, if_neg hlt0]
        have hex2 : ∃ c ∈ t, withinFiveYards ox oy g c ∧
            defenderSumAt s di g c < acc.bestSum := by
          obtain ⟨c, hc, hPc, hlt⟩ := hex
          rcases List.mem_cons.mp hc with rfl | hc2
          · exact absurd hlt hlt0
          · exact ⟨c, hc2, hPc, hlt⟩
        obtain ⟨l1, c, l2, hsplit, hPc, hclt, hbef, haft, hsum, hx, hy, hinv2⟩ :=
          fold_search_min s di ox oy g t
            ⟨moveDefenderTo s di g c0, acc.bestSum, acc.bestX, acc.bestY⟩
            (Or.inr ⟨c0, rfl⟩) hex2
        refine ⟨c0 :: l1, c, l2, by rw [hsplit, List.cons_append], hPc, hclt, ?_,
          haft, hsum, hx, hy, hinv2⟩
        intro e he hPe
        rcases List.mem_cons.mp he with rfl | he2
        · exact lt_of_lt_of_le hclt (not_lt.mp hlt0)
        · exact hbef e he2 hPe
    · rw [defenderSearchStep_skip di ox oy g acc c0 hP0]
      have hex2 : ∃ c ∈ t, withinFiveYards ox oy g c ∧
          defenderSumAt s di g c < acc.bestSum := by
        obtain ⟨c, hc, hPc, hlt⟩ := hex
        rcases List.mem_cons.mp hc with rfl | hc2
        · exact absurd hPc hP0
        · exact ⟨c, hc2, hPc, hlt⟩
      obtain ⟨l1, c, l2, hsplit, hPc, hclt, hbef, haft, hsum, hx, hy, hinv2⟩ :=
        fold_search_min s di ox oy g t acc hInv hex2
      refine ⟨c0 :: l1, c, l2, by rw [hsplit, List.cons_append], hPc, hclt, ?_,
        haft, hsum, hx, hy, hinv2⟩
      intro e he hPe
      rcases List.mem_cons.mp he with rfl | he2
      · exact absurd hPe hP0
      · exact hbef e he2 hPe

theorem mem_gridCells {nX nY : ℕ} {c : ℕ × ℕ} :
    c ∈ gridCells nX nY ↔ c.1 < nX ∧ c.2 < nY := by
  rcases c with ⟨cx, cy⟩
  unfold gridCells
  simp only [List.mem_flatMap, List.mem_map, List.mem_range, Prod.mk.injEq]
  constructor
  · rintro ⟨a, ha, b, hb, rfl, rfl⟩
    exact ⟨ha, hb⟩
  · rintro ⟨h1, h2⟩
    exact ⟨cx, h1, cy, h2, rfl, rfl⟩

theorem clampedCellX_eq {c : ℕ × ℕ} (h : c.1 < 110) : clampedCellX 1 c = cellCenter 1 c.1 := by
  have h109 : (c.1 : ℝ) ≤ 109 := by
    have : c.1 ≤ 109 := by omega
    exact_mod_cast this
  have h1 : cellCenter 1 c.1 ≤ totalLength := by
    unfold cellCenter
    rw [totalLength, fieldLength, endZoneDepth]
    linarith
  have h0 : (0:ℝ) ≤ cellCenter 1 c.1 := by
    unfold cellCenter
    positivity
  unfold clampedCellX
  rw [min_eq_right h1, max_eq_right h0]

theorem clampedCellY_eq {c : ℕ × ℕ} (h : c.2 < 40) : clampedCellY 1 c = cellCenter 1 c.2 := by
  have h39 : (c.2 : ℝ) ≤ 39 := by
    have : c.2 ≤ 39 := by omega
    exact_mod_cast this
  have h1 : cellCenter 1 c.2 ≤ fieldWidth := by
    unfold cellCenter
    rw [fieldWidth]
    linarith
  have h0 : (0:ℝ) ≤ cellCenter 1 c.2 := by
    unfold cellCenter
    positivity
  unfold clampedCellY
  rw [min_eq_right h1, max_eq_right h0]

/-- The pre-normalised combined sum is finite exactly when a thrower exists;
in particular it is finite when `find?` locates a disc holder. -/
theorem sumPre_ne_top {s : GameState} {p : Player}
    (hp : s.players.find? (fun p => p.hasDisc) = some p) :
    _getCombinedHeatMapSumPreNormalized s ≠ ⊤ := by
  simp only [_getCombinedHeatMapSumPreNormalized, _getMarkingDifficultyLayer, hp]
  exact WithTop.coe_ne_top

/-- **C7.** When a downfield defender (index `di`) and an offender without the
disc (index `oi`) exist, the grid size is the default 1, and some candidate
cell within 5 yards of the offender yields a finite pre-normalised sum (i.e. a
thrower exists), `positionDefenderOptimal` leaves the defender at the centre
of the *first* candidate cell, in iteration order (increasing cell x, then
increasing cell y), that minimises the pre-normalisation combined four-layer
sum over the whole grid computed with the defender placed at that cell. -/
theorem positionDefenderOptimal_spec (s : GameState) (di oi : ℕ)
    (hdi : s.players.findIdx? (fun p => p.isDefender && !p.isMark) = some di)
    (hoi : s.players.findIdx? (fun p => !p.isDefender && !p.hasDisc) = some oi)
    (hg : s.heatMapGridSize = 1)
    (hfin : ∃ c ∈ gridCells 110 40,
      withinFiveYards (s.players.getD oi default).x (s.players.getD oi default).y 1 c ∧
        defenderSumAt s di 1 c ≠ ⊤) :
    ∃ c, IsFirstMin (defenderSumAt s di 1)
        (withinFiveYards (s.players.getD oi default).x (s.players.getD oi default).y 1)
        (gridCells 110 40) c ∧
      positionDefenderOptimal s = movePlayerTo s di (cellCenter 1 c.1) (cellCenter 1 c.2) := by
  have hex : ∃ c ∈ gridCells 110 40,
      withinFiveYards (s.players.getD oi default).x (s.players.getD oi default).y 1 c ∧
        defenderSumAt s di 1 c < (⊤ : WithTop ℝ) := by
    obtain ⟨c, hc, hP, hne⟩ := hfin
    exact ⟨c, hc, hP, lt_top_iff_ne_top.mpr hne⟩
  simp only [positionDefenderOptimal, hdi, hoi]
  rw [hg]
  rw [show (⌈totalLength / (1:ℝ)⌉₊ : ℕ) = 110 by
      rw [totalLength, fieldLength, endZoneDepth]
      norm_num,
    show (⌈fieldWidth / (1:ℝ)⌉₊ : ℕ) = 40 by
      rw [fieldWidth]
      norm_num]
  obtain ⟨l1, c, l2, hsplit, hPc, hclt, hbef, haft, hsum, hx, hy, hinv⟩ :=
    fold_search_min s di (s.players.getD oi default).x (s.players.getD oi default).y 1
      (gridCells 110 40)
      ⟨s, ⊤, (s.players.getD di default).x, (s.players.getD di default).y⟩
      (Or.inl rfl) hex
  have hcmem : c ∈ gridCells 110 40 := by
    rw [hsplit]
    exact List.mem_append_right _ (List.mem_cons_self _ _)
  have hcx : c.1 < 110 := (mem_gridCells.mp hcmem).1
  have hcy : c.2 < 40 := (mem_gridCells.mp hcmem).2
  refine ⟨c, ⟨l1, l2, hsplit, hPc, hbef, haft⟩, ?_⟩
  rw [hx, hy]
  rcases hinv with hst | ⟨c0, hst⟩
  · rw [hst, clampedCellX_eq hcx, clampedCellY_eq hcy]
  · rw [hst]
    simp only [moveDefenderTo]
    rw [movePlayerTo_twice, clampedCellX_eq hcx, clampedCellY_eq hcy]

/-- Witness for C7 at the initial state: the downfield defender is index 3
(`defender_2`), the offender is index 2 (`offense_2` at `(55, 15)`), the
thrower exists, and the candidate cell `(55, 15)` (centre `(55.5, 15.5)`) is
within 5 yards of the offender with a finite sum. -/
theorem positionDefenderOptimal_spec_witness :
    ∃ c, IsFirstMin (defenderSumAt initialGame 3 1)
        (withinFiveYards (initialGame.players.getD 2 default).x
          (initialGame.players.getD 2 default).y 1)
        (gridCells 110 40) c ∧
      positionDefenderOptimal initialGame =
        movePlayerTo initialGame 3 (cellCenter 1 c.1) (cellCenter 1 c.2) := by
  apply positionDefenderOptimal_spec initialGame 3 2 rfl rfl rfl
  refine ⟨(55, 15), mem_gridCells.mpr (by norm_num), ?_, ?_⟩
  · show ((55:ℕ) * (1:ℝ) + 1 / 2 - 55) * ((55:ℕ) * (1:ℝ) + 1 / 2 - 55) +
      ((15:ℕ) * (1:ℝ) + 1 / 2 - 15) * ((15:ℕ) * (1:ℝ) + 1 / 2 - 15) ≤ 5 * 5
    push_cast
    norm_num
  · exact @sumPre_ne_top _ (Player.mk "offense_1" 1 80 15 "#ef4444" true false false) rfl

end

end UltimateFrisbee
